import Mathlib

/-!
Shallow embedding of `src/main.rs` of the `ocs01-auto` client: an automated
smart-contract exerciser that reads a method interface, synthesizes arguments,
performs read-only view calls and submits signed call transactions with a
three-attempt retry loop.

Modelling conventions:
* `serde_json::Value` is the inductive `Json`; JSON numbers are carried
  exactly as rationals.
* The network is a consumable trace of `NetResult` responses; every HTTP
  exchange issued by the client is recorded (as a `Request`) in the order it
  was sent, so theorems can speak about what went over the wire.
* `SystemTime::now()` is a clock stream `Nat → ℚ` read at an incrementing
  tick; `rand::thread_rng` is a stream `Nat → Nat` read at an incrementing
  index.
* Rust `f64` arithmetic in `get_balance` (decimal parse, division by 10^6)
  and the `f64` timestamp are modelled exactly over `ℚ`; `f64`'s `Display`
  (shortest round-trip, hence injective on values) is modelled by `toString`
  on `ℚ`.
* Ed25519 (`ed25519_dalek`) signing is deterministic in key and message; it
  is modelled by an abstract `SigningKey` carrying a signing function
  `String → String` and an encoded public key.
* `anyhow` errors are the inductive `Err`; `eprintln!`/`println!` lines and
  `thread::sleep` calls are recorded in the state so that reporting and
  backoff are provable facts.
-/

namespace Ocs01

/-- Model of `serde_json::Value`. -/
inductive Json where
  | null
  | bool (b : Bool)
  | num (q : ℚ)
  | str (s : String)
  | arr (xs : List Json)
  | obj (kvs : List (String × Json))

/-- Model of `Value`'s `Index<&str>`: `v["k"]` yields the member of an object,
and `Null` for a missing key or a non-object. -/
def Json.getIdx : Json → String → Json
  | .obj kvs, k =>
    match kvs.lookup k with
    | some v => v
    | none => .null
  | _, _ => .null

/-- Model of `Value::as_str`: `some s` exactly when the value is a JSON
string. -/
def Json.asStr : Json → Option String
  | .str s => some s
  | _ => none

/-- Model of `Value == &str` (serde_json's `PartialEq<str>`): true exactly
when the value is a JSON string with these contents. -/
def Json.eqStr : Json → String → Bool
  | .str s, t => s == t
  | _, _ => false

/-- Model of deserializing a `u64` field (serde requires an integral number
in `u64` range). -/
def Json.asU64 : Json → Option Nat
  | .num q =>
    if q.den = 1 ∧ 0 ≤ q.num ∧ q.num.toNat < 18446744073709551616 then
      some q.num.toNat
    else none
  | _ => none

/-- Outcome of one HTTP exchange as the client observes it: a transport
failure (`reqwest` send error), or a reply with a status code, a body text
(for `resp.text()`), and the body parsed as JSON (`none` when the body is
not valid JSON, making `resp.json()` fail). -/
inductive NetResult where
  | transportErr (msg : String)
  | reply (status : Nat) (text : String) (body : Option Json)

/-- One request issued by the client. A GET carries no body (the code never
attaches one); a POST carries the JSON body passed to `.json(&data)`. -/
structure Request where
  httpMethod : String
  url : String
  data : Option Json

/-- Console lines printed by the program, kept structured so theorems can
count and locate them. -/
inductive ConsoleLine where
  | marker (label : String)
  | resultLine (s : String)
  | txHashLine (s : String)
  | errorLine (s : String)
  | unknownType
  | attemptFailed (attempt : Nat) (msg : String)

/-- World state threaded through the embedded program: the pending network
responses (consumed front first), the `SystemTime::now()` clock stream and
its tick, the requests sent so far, the console lines emitted so far, the
`ocs01_report.txt` lines appended so far, and the `thread::sleep` durations
(in seconds) performed so far. -/
structure Net where
  trace : List NetResult
  clock : Nat → ℚ
  tick : Nat
  sent : List Request
  console : List ConsoleLine
  fileLog : List String
  slept : List Nat

/-- Errors of the embedded program, modelling the `anyhow` error values the
source constructs or propagates. -/
inductive Err where
  | network (msg : String)
  | unsupportedMethod
  | api (status : Nat) (text : String)
  | decode (msg : String)
  | contract (raw : Json)
  | retriesExhausted

/-- Display of an error, for the lines the program prints. -/
def Err.display : Err → String
  | .network msg => msg
  | .unsupportedMethod => "Unsupported HTTP method"
  | .api _ text => "api error: " ++ text
  | .decode msg => msg
  | .contract _ => "contract error"
  | .retriesExhausted => "All retries failed"

/-- Model of `api_call` (main.rs lines 59–76), with the JSON decoding into
the caller's target type done at each call site. A GET is sent without a
body, a POST with the given JSON body, any other method bails before any
network activity; a status ≥ 400 bails with the body text; an unparsable
body is a decode failure. An empty pending trace is a transport failure
(the remote never answers). `apiCallResult` is the outcome as a function
of the pending responses. -/
def apiCallResult : List NetResult → Except Err Json
  | [] => .error (.network "no response")
  | .transportErr msg :: _ => .error (.network msg)
  | .reply status text body :: _ =>
    if status ≥ 400 then .error (.api status text)
    else
      match body with
      | none => .error (.decode "invalid json body")
      | some j => .ok j

/-- State effect and outcome of `api_call`: the head response is consumed
and the issued request is recorded. -/
def apiCall (net : Net) (m url : String) (data : Option Json) :
    Except Err Json × Net :=
  if m = "GET" ∨ m = "POST" then
    (apiCallResult net.trace,
     { net with
         sent := net.sent ++ [⟨m, url, if m = "POST" then data else none⟩],
         trace := net.trace.tail })
  else (.error .unsupportedMethod, net)

/-- Digits of a decimal literal, most significant first, as a natural
number. -/
def digitsToNat (ds : List Char) : Nat :=
  ds.foldl (fun a c => a * 10 + (c.toNat - 48)) 0

/-- Model of Rust's `str::parse::<f64>` on the finite decimal forms
(optional sign, integer digits, optional fractional digits), evaluated
exactly over `ℚ`: `none` models `ParseFloatError`. Exponent, `inf` and
`NaN` spellings are outside the strings this development evaluates. -/
def parseFloat (s : String) : Option ℚ :=
  let (neg, cs) :=
    match s.data with
    | '-' :: rest => (true, rest)
    | '+' :: rest => (false, rest)
    | cs => (false, cs)
  let intPart := cs.takeWhile Char.isDigit
  let rest := cs.dropWhile Char.isDigit
  let signed : ℚ → ℚ := fun q => if neg then -q else q
  match rest with
  | [] =>
    if intPart.isEmpty then none
    else some (signed (digitsToNat intPart : ℚ))
  | '.' :: frac =>
    if frac.all Char.isDigit ∧ ¬(intPart.isEmpty ∧ frac.isEmpty) then
      some (signed ((digitsToNat intPart : ℚ) +
        (digitsToNat frac : ℚ) / (10 ^ frac.length)))
    else none
  | _ => none

/-- Model of the `BalanceResponse` struct (main.rs lines 50–54). -/
structure BalanceResponse where
  balance_raw : String
  nonce : Nat

/-- Model of serde's derived deserializer for `BalanceResponse`: the body
must be a JSON object whose `balance_raw` member is a string and whose
`nonce` member is a `u64`. -/
def decodeBalance : Json → Option BalanceResponse
  | .obj kvs =>
    match ((Json.obj kvs).getIdx "balance_raw").asStr,
        ((Json.obj kvs).getIdx "nonce").asU64 with
    | some s, some n => some ⟨s, n⟩
    | _, _ => none
  | _ => none

/-- Outcome of `get_balance` (main.rs lines 81–90) as a function of the
pending responses: decode a `BalanceResponse` from the reply, parse
`balance_raw` as an `f64` and divide by 1 000 000, return the pair with
the nonce unchanged. -/
def getBalanceResult (trace : List NetResult) : Except Err (ℚ × Nat) :=
  match apiCallResult trace with
  | .error e => .error e
  | .ok j =>
    match decodeBalance j with
    | none => .error (.decode "balance response shape")
    | some b =>
      match parseFloat b.balance_raw with
      | none => .error (.decode "invalid float literal")
      | some q => .ok (q / 1000000, b.nonce)

/-- Model of `get_balance`: GET `{rpc}/balance/{addr}` and
interpret the reply. The state effect of `get_balance` is exactly that of
its one `api_call` (which does not depend on the outcome), so the model is
split into `getBalanceResult` for the outcome and the `api_call` state
update. -/
def getBalance (net : Net) (apiUrl addr : String) :
    Except Err (ℚ × Nat) × Net :=
  (getBalanceResult net.trace,
   (apiCall net "GET" (apiUrl ++ "/balance/" ++ addr) none).2)

/-- Model of the transaction map built in `try_send_tx` (main.rs lines
147–153): a `HashMap<&str, String>` with the six keys `from`, `to_`,
`amount`, `nonce`, `ou`, `timestamp`, all string-valued (`nonce` and
`timestamp` hold the decimal renderings of the numbers). -/
structure Tx where
  from_ : String
  to_ : String
  amount : String
  nonce : String
  ou : String
  timestamp : String

/-- Model of the canonical message built by `sign_tx` (main.rs lines
96–99): the format string interpolates the six map entries in a fixed
order, `from`/`to_`/`amount`/`ou` quoted, `nonce`/`timestamp` bare, with no
whitespace. -/
def canonicalBlob (tx : Tx) : String :=
  "\x7b\"from\":\"" ++ tx.from_ ++ "\",\"to_\":\"" ++ tx.to_ ++
    "\",\"amount\":\"" ++ tx.amount ++ "\",\"nonce\":" ++ tx.nonce ++
    ",\"ou\":\"" ++ tx.ou ++ "\",\"timestamp\":" ++ tx.timestamp ++ "\x7d"

/-- Model of an `ed25519_dalek::SigningKey` together with the base64
encodings the source derives from it: `sig` is the deterministic
message ↦ base64-signature function (`sk.sign(blob).to_bytes()` encoded),
`pubKeyB64` the base64 of `sk.verifying_key().to_bytes()`. -/
structure SigningKey where
  sig : String → String
  pubKeyB64 : String

/-- Model of `sign_tx` (main.rs lines 95–102): sign the canonical blob and
return the base64-encoded signature. -/
def signTx (sk : SigningKey) (tx : Tx) : String :=
  sk.sig (canonicalBlob tx)

/-- Body of the `call-view` POST built by `view_call` (main.rs lines
112–117): a function only of the contract address, method name, params and
caller. -/
def viewBody (contract method : String) (params : List String)
    (caller : String) : Json :=
  .obj [("contract", .str contract), ("method", .str method),
    ("params", .arr (params.map .str)), ("caller", .str caller)]

/-- Outcome of `view_call` (main.rs lines 107–125) as a function of the
pending responses: on a `status == "success"` reply return
`result.as_str().unwrap_or("null")`, otherwise bail carrying the raw
response. -/
def viewCallResult (trace : List NetResult) : Except Err String :=
  match apiCallResult trace with
  | .error e => .error e
  | .ok res =>
    if (res.getIdx "status").eqStr "success" then
      .ok ((res.getIdx "result").asStr.getD "null")
    else .error (.contract res)

/-- Model of `view_call`: POST the view body and interpret the reply. The
state effect of `view_call` is exactly that of its one `api_call` (which
does not depend on the outcome), so the model is split into
`viewCallResult` for the outcome and the `api_call` state update. -/
def viewCall (net : Net) (apiUrl contract method : String)
    (params : List String) (caller : String) : Except Err String × Net :=
  (viewCallResult net.trace,
   (apiCall net "POST" (apiUrl ++ "/contract/call-view")
     (some (viewBody contract method params caller))).2)

/-- Model of `SystemTime::now().duration_since(UNIX_EPOCH)?.as_secs_f64()`:
read the clock stream at the current tick and advance the tick. -/
def nowTime (net : Net) : ℚ × Net :=
  (net.clock net.tick, { net with tick := net.tick + 1 })

/-- The transaction map built by one attempt of `try_send_tx` (main.rs
lines 147–153) from the nonce it observed and the timestamp it read. -/
def attemptTx (from_ contract : String) (nonce : Nat) (timestamp : ℚ) : Tx :=
  ⟨from_, contract, "0", toString (nonce + 1), "1", toString timestamp⟩

/-- Body of the `call-contract` POST built by `try_send_tx` (main.rs lines
162–171). -/
def callBody (contract method : String) (params : List String)
    (caller : String) (nonce : Nat) (timestamp : ℚ)
    (signature pubKey : String) : Json :=
  .obj [("contract", .str contract), ("method", .str method),
    ("params", .arr (params.map .str)), ("caller", .str caller),
    ("nonce", .num (nonce + 1)), ("timestamp", .num timestamp),
    ("signature", .str signature), ("public_key", .str pubKey)]

/-- Interpretation of the submit endpoint's answer by `try_send_tx`
(main.rs line 174): errors propagate, and a reply yields
`tx_hash.as_str().unwrap_or("")`. -/
def trySendTxResult : Except Err Json → Except Err String
  | .error e => .error e
  | .ok res => .ok ((res.getIdx "tx_hash").asStr.getD "")

/-- Model of `try_send_tx` (main.rs lines 143–175): fetch the account state
(discarding the balance), read the clock, build the transaction map with
`nonce + 1`, sign it, and POST the call-contract body; the outcome of the
second `api_call` is interpreted by `trySendTxResult`. -/
def trySendTx (net : Net) (apiUrl : String) (sk : SigningKey)
    (from_ contract method : String) (params : List String) :
    Except Err String × Net :=
  match getBalance net apiUrl from_ with
  | (.error e, net1) => (.error e, net1)
  | (.ok (_, nonce), net1) =>
    let (timestamp, net2) := nowTime net1
    let tx : Tx := attemptTx from_ contract nonce timestamp
    let signature := signTx sk tx
    let body : Json := callBody contract method params from_ nonce timestamp
      signature sk.pubKeyB64
    let (r, net3) := apiCall net2 "POST" (apiUrl ++ "/call-contract")
      (some body)
    (trySendTxResult r, net3)

/-- Body of the `for attempt in 1..=3` loop of `call_contract_tx` (main.rs
lines 131–139), fuel-indexed: a successful attempt returns its hash; a
failed one prints the `⚠ Attempt {attempt}/3 failed` line, sleeps 2
seconds, and recurses; exhausted fuel is the `bail!("All retries failed")`
after the loop. -/
def callLoop (apiUrl : String) (sk : SigningKey)
    (from_ contract method : String) (params : List String) :
    Nat → Nat → Net → Except Err String × Net
  | 0, _, net => (.error .retriesExhausted, net)
  | fuel + 1, attempt, net =>
    match trySendTx net apiUrl sk from_ contract method params with
    | (.ok hash, net') => (.ok hash, net')
    | (.error e, net') =>
      let net'' := { net' with
        console := net'.console ++ [.attemptFailed attempt e.display],
        slept := net'.slept ++ [2] }
      callLoop apiUrl sk from_ contract method params fuel (attempt + 1) net''

/-- Model of `call_contract_tx` (main.rs lines 130–141): three attempts,
numbered from 1. -/
def callContractTx (net : Net) (apiUrl : String) (sk : SigningKey)
    (from_ contract method : String) (params : List String) :
    Except Err String × Net :=
  callLoop apiUrl sk from_ contract method params 3 1 net

/-- Model of the `Param` struct (main.rs lines 26–33); `example_` models
the `example` field. -/
structure Param where
  name : String
  param_type : String
  example_ : Option String
  max : Option Nat

/-- Model of the `Method` struct (main.rs lines 35–42). -/
structure Method where
  name : String
  label : String
  params : List Param
  method_type : String

/-- Model of the `Interface` struct (main.rs lines 44–48). -/
structure Interface where
  contract : String
  methods : List Method

/-- Model of the `Wallet` struct (main.rs lines 18–24). -/
structure Wallet where
  priv_ : String
  addr : String
  rpc : String

/-- Value produced for one parameter by the closure in `generate_params`
(main.rs lines 182–189), reading the random stream at index `k`: the
declared example verbatim (no random draw), else `rng.gen_range(1..=max)`,
else `rng.gen_range(1..=100)`. `none` models the panic of `gen_range` on
the empty range `1..=0`. -/
def genOne (rng : Nat → Nat) (k : Nat) (p : Param) : Option (String × Nat) :=
  match p.example_ with
  | some ex => some (ex, k)
  | none =>
    let hi := p.max.getD 100
    if hi < 1 then none
    else some (toString (1 + rng k % hi), k + 1)

/-- Model of `generate_params` (main.rs lines 180–191): map `genOne` over
the parameter list, threading the random-stream index; a panic anywhere
aborts the whole computation. -/
def generateParams (rng : Nat → Nat) (k : Nat) :
    List Param → Option (List String × Nat)
  | [] => some ([], k)
  | p :: ps =>
    match genOne rng k p with
    | none => none
    | some (v, k') =>
      match generateParams rng k' ps with
      | none => none
      | some (vs, k'') => some (v :: vs, k'')

/-- One iteration of the method loop in `main` (main.rs lines 221–252):
print the label marker, generate parameters, branch on the method type
(`view` / `call` / unknown), record the outcome on the console and in the
report file, and sleep 2 seconds. `none` models a `generate_params` panic
killing the process. -/
def dispatchStep (rng : Nat → Nat) (wallet : Wallet) (sk : SigningKey)
    (contract : String) (st : Net × Nat) (m : Method) : Option (Net × Nat) :=
  let net0 := { st.1 with console := st.1.console ++ [ConsoleLine.marker m.label] }
  match generateParams rng st.2 m.params with
  | none => none
  | some (params, k') =>
    let net' :=
      if m.method_type = "view" then
        match viewCall net0 wallet.rpc contract m.name params wallet.addr with
        | (.ok result, n1) =>
          { n1 with
              console := n1.console ++ [ConsoleLine.resultLine result],
              fileLog := n1.fileLog ++ [m.label ++ ": " ++ result] }
        | (.error e, n1) =>
          { n1 with
              console := n1.console ++ [ConsoleLine.errorLine e.display],
              fileLog := n1.fileLog ++ [m.label ++ ": Error - " ++ e.display] }
      else if m.method_type = "call" then
        match callContractTx net0 wallet.rpc sk wallet.addr contract m.name
            params with
        | (.ok h, n1) =>
          { n1 with
              console := n1.console ++ [ConsoleLine.txHashLine h],
              fileLog := n1.fileLog ++ [m.label ++ ": TX Hash " ++ h] }
        | (.error e, n1) =>
          { n1 with
              console := n1.console ++ [ConsoleLine.errorLine e.display],
              fileLog := n1.fileLog ++ [m.label ++ ": Error - " ++ e.display] }
      else { net0 with console := net0.console ++ [ConsoleLine.unknownType] }
    some ({ net' with slept := net'.slept ++ [2] }, k')

/-- The method loop of `main` over a list of declared methods, in
declaration order. -/
def runMethods (rng : Nat → Nat) (wallet : Wallet) (sk : SigningKey)
    (contract : String) : Net × Nat → List Method → Option (Net × Nat)
  | st, [] => some st
  | st, m :: ms =>
    match dispatchStep rng wallet sk contract st m with
    | none => none
    | some st' => runMethods rng wallet sk contract st' ms

/-- Labels of the `▶ label...` marker lines in a console transcript, in
order: one per method the dispatcher began processing. -/
def markersOf (ls : List ConsoleLine) : List String :=
  ls.filterMap fun l =>
    match l with
    | .marker s => some s
    | _ => none

/-- Balance-endpoint response body with the given raw balance string and
nonce, in the wire shape `\x7b"balance_raw": s, "nonce": n\x7d`. -/
def balBody (s : String) (n : Nat) : Json :=
  .obj [("balance_raw", .str s), ("nonce", .num n)]

/-- Successful (HTTP 200) balance-endpoint reply. -/
def balReply (s : String) (n : Nat) : NetResult :=
  .reply 200 "" (some (balBody s n))

/-- Initial world with a given pending trace and clock: nothing sent,
printed, logged or slept yet. -/
def mkNet (trace : List NetResult) (clock : Nat → ℚ) : Net :=
  ⟨trace, clock, 0, [], [], [], []⟩

/-- Textual form of a JSON value. Modelled from the spec: §4.5 says a
successful view call yields "the result field (coerced to its textual
form, with an explicit sentinel \"null\" when absent)"; this spec-side
definition renders any present result value as text, for comparison with
what the code actually returns. -/
def specTextualForm : Json → String
  | .null => "null"
  | .bool b => toString b
  | .num q => toString q
  | .str s => s
  | .arr _ => "array"
  | .obj _ => "object"

/-- Relation between a parameter spec and a generated value: the declared
example verbatim, else the decimal string of an integer in
`[1, max.getD 100]` (the declared bound, or 100 when none). -/
def ParamMatches (p : Param) (v : String) : Prop :=
  match p.example_ with
  | some ex => v = ex
  | none => ∃ x, 1 ≤ x ∧ x ≤ p.max.getD 100 ∧ v = toString x

/-! ## Properties -/

/-! ### Shared evaluation lemmas -/

/-- Looking up `balance_raw` in a balance body. -/
theorem getIdx_balBody_raw (s : String) (n : Nat) :
    (balBody s n).getIdx "balance_raw" = .str s := by
  simp [balBody, Json.getIdx, List.lookup]

/-- Looking up `nonce` in a balance body. -/
theorem getIdx_balBody_nonce (s : String) (n : Nat) :
    (balBody s n).getIdx "nonce" = .num n := by
  simp [balBody, Json.getIdx, List.lookup]

/-- A `u64`-range natural deserializes as itself. -/
theorem asU64_natCast (n : Nat) (hn : n < 18446744073709551616) :
    Json.asU64 (.num n) = some n := by
  simp [Json.asU64]
  omega

/-- A well-shaped balance body decodes to the expected record. -/
theorem decodeBalance_balBody (s : String) (n : Nat)
    (hn : n < 18446744073709551616) :
    decodeBalance (balBody s n) = some ⟨s, n⟩ := by
  have h1 := getIdx_balBody_raw s n
  have h2 := getIdx_balBody_nonce s n
  have h3 := asU64_natCast n hn
  show decodeBalance (.obj [("balance_raw", .str s), ("nonce", .num n)]) =
    some ⟨s, n⟩
  rw [decodeBalance]
  rw [show (balBody s n) =
    Json.obj [("balance_raw", Json.str s), ("nonce", Json.num n)] from rfl]
    at h1 h2
  rw [h1, h2, h3]
  rfl

/-- Evaluation of `api_call` for a supported method: the outcome is
`apiCallResult` of the pending trace, the request is recorded and the head
response consumed. -/
theorem apiCall_eval (net : Net) (m url : String) (data : Option Json)
    (hm : m = "GET" ∨ m = "POST") :
    apiCall net m url data =
      (apiCallResult net.trace,
       { net with
           sent := net.sent ++ [⟨m, url, if m = "POST" then data else none⟩],
           trace := net.trace.tail }) := by
  unfold apiCall
  rw [if_pos hm]

/-- State effect and outcome of `get_balance`. -/
theorem getBalance_eval (net : Net) (apiUrl addr : String) :
    getBalance net apiUrl addr =
      (getBalanceResult net.trace,
       { net with
           sent := net.sent ++ [⟨"GET", apiUrl ++ "/balance/" ++ addr, none⟩],
           trace := net.trace.tail }) := rfl

/-- State effect and outcome of `view_call`. -/
theorem viewCall_eval (net : Net) (apiUrl contract method : String)
    (params : List String) (caller : String) :
    viewCall net apiUrl contract method params caller =
      (viewCallResult net.trace,
       { net with
           sent := net.sent ++ [⟨"POST", apiUrl ++ "/contract/call-view",
             some (viewBody contract method params caller)⟩],
           trace := net.trace.tail }) := rfl

/-- Outcome of `get_balance` against a successful, well-shaped balance
reply. -/
theorem getBalanceResult_reply (s text : String) (n : Nat)
    (rest : List NetResult) (hn : n < 18446744073709551616) :
    getBalanceResult (.reply 200 text (some (balBody s n)) :: rest) =
      (match parseFloat s with
       | none => .error (.decode "invalid float literal")
       | some q => .ok (q / 1000000, n)) := by
  have step1 : getBalanceResult
      (.reply 200 text (some (balBody s n)) :: rest) =
      (match decodeBalance (balBody s n) with
       | none => Except.error (Err.decode "balance response shape")
       | some b =>
         match parseFloat b.balance_raw with
         | none => Except.error (Err.decode "invalid float literal")
         | some q => Except.ok (q / 1000000, b.nonce)) := rfl
  rw [step1, decodeBalance_balBody s n hn]

/-! ### C6 -/

/-- C6: a balance-endpoint reply whose `balance_raw` string parses as a
number resolves to the pair (value divided by 1 000 000, nonce unchanged);
a `balance_raw` string that does not parse fails with a decode error. -/
theorem getBalance_resolution (net : Net) (apiUrl addr s text : String)
    (n : Nat) (rest : List NetResult) (hn : n < 18446744073709551616)
    (ht : net.trace = .reply 200 text (some (balBody s n)) :: rest) :
    (∀ q : ℚ, parseFloat s = some q →
      (getBalance net apiUrl addr).1 = .ok (q / 1000000, n)) ∧
    (parseFloat s = none →
      (getBalance net apiUrl addr).1 =
        .error (.decode "invalid float literal")) := by
  have h1 : (getBalance net apiUrl addr).1 = getBalanceResult net.trace :=
    rfl
  constructor
  · intro q hq
    rw [h1, ht, getBalanceResult_reply s text n rest hn, hq]
  · intro hq
    rw [h1, ht, getBalanceResult_reply s text n rest hn, hq]

/-- C6 witness: the spec's scenario `\x7b"balance_raw":"2500000",
"nonce":5\x7d` resolves to `(2.5, 5)`, and the non-numeric balance string
`"abc"` is a decode error. -/
theorem getBalance_resolution_witness :
    (5 : Nat) < 18446744073709551616 ∧
    (mkNet [balReply "2500000" 5] (fun _ => 0)).trace =
      NetResult.reply 200 "" (some (balBody "2500000" 5)) :: [] ∧
    parseFloat "2500000" = some 2500000 ∧
    parseFloat "abc" = none ∧
    (getBalance (mkNet [balReply "2500000" 5] (fun _ => 0)) "rpc" "a").1 =
      .ok (5 / 2, 5) ∧
    (getBalance (mkNet [balReply "abc" 7] (fun _ => 0)) "rpc" "a").1 =
      .error (.decode "invalid float literal") := by
  refine ⟨by norm_num, rfl, by decide, by decide, ?_, ?_⟩
  · have h := (getBalance_resolution (mkNet [balReply "2500000" 5]
      (fun _ => 0)) "rpc" "a" "2500000" "" 5 [] (by norm_num) rfl).1
      2500000 (by decide)
    rw [h]
    norm_num
  · exact (getBalance_resolution (mkNet [balReply "abc" 7] (fun _ => 0))
      "rpc" "a" "abc" "" 7 [] (by norm_num) rfl).2 (by decide)

/-- Evaluation of one submission attempt whose account-state fetch answers
with a well-shaped balance reply: the attempt reads the clock, signs the
canonical blob for `observed nonce + 1` and the fresh timestamp, POSTs the
call-contract body, and the outcome is `tx_hash.as_str().unwrap_or("")` of
whatever the submit endpoint answers. -/
theorem trySendTx_reply (net : Net) (apiUrl : String) (sk : SigningKey)
    (from_ contract method : String) (params : List String)
    (s text : String) (n : Nat) (q : ℚ) (rest : List NetResult)
    (hn : n < 18446744073709551616) (hq : parseFloat s = some q)
    (ht : net.trace = .reply 200 text (some (balBody s n)) :: rest) :
    trySendTx net apiUrl sk from_ contract method params =
      (trySendTxResult (apiCallResult rest),
       { net with
           trace := rest.tail,
           tick := net.tick + 1,
           sent := (net.sent ++ [⟨"GET", apiUrl ++ "/balance/" ++ from_,
             none⟩]) ++ [⟨"POST", apiUrl ++ "/call-contract",
             some (callBody contract method params from_ n
               (net.clock net.tick)
               (signTx sk (attemptTx from_ contract n
                 (net.clock net.tick))) sk.pubKeyB64)⟩] }) := by
  have hb : getBalance net apiUrl from_ =
      (.ok (q / 1000000, n),
       { net with
           sent := net.sent ++ [⟨"GET", apiUrl ++ "/balance/" ++ from_,
             none⟩],
           trace := rest }) := by
    rw [getBalance_eval, ht, getBalanceResult_reply s text n rest hn, hq]
    rfl
  unfold trySendTx
  rw [hb]
  rfl

/-- Evaluation of one submission attempt whose account-state fetch hits a
transport failure: the attempt fails with that error having issued only
the balance GET. -/
theorem trySendTx_transportErr (net : Net) (apiUrl : String)
    (sk : SigningKey) (from_ contract method : String)
    (params : List String) (msg : String) (rest : List NetResult)
    (ht : net.trace = .transportErr msg :: rest) :
    trySendTx net apiUrl sk from_ contract method params =
      (.error (.network msg),
       { net with
           trace := rest,
           sent := net.sent ++ [⟨"GET", apiUrl ++ "/balance/" ++ from_,
             none⟩] }) := by
  have hb : getBalance net apiUrl from_ =
      (.error (.network msg),
       { net with
           sent := net.sent ++ [⟨"GET", apiUrl ++ "/balance/" ++ from_,
             none⟩],
           trace := rest }) := by
    rw [getBalance_eval, ht]
    rfl
  unfold trySendTx
  rw [hb]

/-- Evaluation of one submission attempt with no pending responses: the
attempt fails with the transport error of the balance GET. -/
theorem trySendTx_empty (net : Net) (apiUrl : String) (sk : SigningKey)
    (from_ contract method : String) (params : List String)
    (ht : net.trace = []) :
    trySendTx net apiUrl sk from_ contract method params =
      (.error (.network "no response"),
       { net with
           trace := [],
           sent := net.sent ++ [⟨"GET", apiUrl ++ "/balance/" ++ from_,
             none⟩] }) := by
  have hb : getBalance net apiUrl from_ =
      (.error (.network "no response"),
       { net with
           sent := net.sent ++ [⟨"GET", apiUrl ++ "/balance/" ++ from_,
             none⟩],
           trace := [] }) := by
    rw [getBalance_eval, ht]
    rfl
  unfold trySendTx
  rw [hb]

/-- Unfolding of one iteration of the retry loop. -/
theorem callLoop_succ (apiUrl : String) (sk : SigningKey)
    (from_ contract method : String) (params : List String)
    (fuel attempt : Nat) (net : Net) :
    callLoop apiUrl sk from_ contract method params (fuel + 1) attempt
      net =
      (match trySendTx net apiUrl sk from_ contract method params with
       | (.ok hash, net') => (.ok hash, net')
       | (.error e, net') =>
         callLoop apiUrl sk from_ contract method params fuel
           (attempt + 1)
           { net' with
               console := net'.console ++
                 [.attemptFailed attempt e.display],
               slept := net'.slept ++ [2] }) := rfl

/-- Exhausted fuel is the aggregate failure. -/
theorem callLoop_zero (apiUrl : String) (sk : SigningKey)
    (from_ contract method : String) (params : List String)
    (attempt : Nat) (net : Net) :
    callLoop apiUrl sk from_ contract method params 0 attempt net =
      (.error .retriesExhausted, net) := rfl

/-- One failing attempt in a world where every pending response is a
transport failure: some error is produced, the trace loses its head and
only the balance GET was issued. -/
theorem trySendTx_allFail (net : Net) (apiUrl : String) (sk : SigningKey)
    (from_ contract method : String) (params : List String)
    (h : ∀ r ∈ net.trace, ∃ m, r = NetResult.transportErr m) :
    ∃ msg, trySendTx net apiUrl sk from_ contract method params =
      (.error (.network msg),
       { net with
           trace := net.trace.tail,
           sent := net.sent ++ [⟨"GET", apiUrl ++ "/balance/" ++ from_,
             none⟩] }) := by
  cases htr : net.trace with
  | nil =>
    refine ⟨"no response", ?_⟩
    rw [trySendTx_empty net apiUrl sk from_ contract method params htr]
    rfl
  | cons r rest =>
    obtain ⟨m, rfl⟩ := h r (htr ▸ List.mem_cons_self r rest)
    refine ⟨m, ?_⟩
    rw [trySendTx_transportErr net apiUrl sk from_ contract method params
      m rest htr]
    rfl

/-- Membership in a tail. -/
theorem mem_of_tail {A : Type} (l : List A) (r : A) (hr : r ∈ l.tail) :
    r ∈ l := by
  cases l with
  | nil => simp at hr
  | cons a t => exact List.mem_cons_of_mem a hr

/-- A failed attempt prints its report, sleeps 2 seconds, and hands the
loop the next fuel and attempt number. -/
theorem callLoop_failStep (apiUrl : String) (sk : SigningKey)
    (from_ contract method : String) (params : List String)
    (fuel attempt : Nat) (net : Net) (e : Err) (net' : Net)
    (hfail : trySendTx net apiUrl sk from_ contract method params =
      (.error e, net')) :
    callLoop apiUrl sk from_ contract method params (fuel + 1) attempt
      net =
      callLoop apiUrl sk from_ contract method params fuel (attempt + 1)
        { net' with
            console := net'.console ++ [.attemptFailed attempt e.display],
            slept := net'.slept ++ [2] } := by
  rw [callLoop_succ, hfail]

/-- A successful attempt returns its hash immediately. -/
theorem callLoop_okStep (apiUrl : String) (sk : SigningKey)
    (from_ contract method : String) (params : List String)
    (fuel attempt : Nat) (net : Net) (hash : String) (net' : Net)
    (hok : trySendTx net apiUrl sk from_ contract method params =
      (.ok hash, net')) :
    callLoop apiUrl sk from_ contract method params (fuel + 1) attempt
      net = (.ok hash, net') := by
  rw [callLoop_succ, hok]

/-! ### C2 -/

/-- C2: a submitter whose underlying transport always fails (every pending
response is a transport error, which covers an exhausted trace as well)
terminates with the aggregate `All retries failed` error after exactly 3
attempts: three failure reports numbered 1, 2, 3 in order, three 2-second
backoffs, and exactly three balance requests issued — never a 4th
attempt. -/
theorem retry_bound_three_attempts (net : Net) (apiUrl : String)
    (sk : SigningKey) (from_ contract method : String)
    (params : List String)
    (h : ∀ r ∈ net.trace, ∃ m, r = NetResult.transportErr m) :
    ∃ e1 e2 e3,
      callContractTx net apiUrl sk from_ contract method params =
        (.error .retriesExhausted,
         { net with
             trace := net.trace.tail.tail.tail,
             sent := ((net.sent ++ [⟨"GET", apiUrl ++ "/balance/" ++ from_,
               none⟩]) ++ [⟨"GET", apiUrl ++ "/balance/" ++ from_, none⟩])
               ++ [⟨"GET", apiUrl ++ "/balance/" ++ from_, none⟩],
             console := ((net.console ++ [.attemptFailed 1 e1]) ++
               [.attemptFailed 2 e2]) ++ [.attemptFailed 3 e3],
             slept := ((net.slept ++ [2]) ++ [2]) ++ [2] }) := by
  obtain ⟨m1, h1⟩ :=
    trySendTx_allFail net apiUrl sk from_ contract method params h
  have hh1 : ∀ r ∈ (net.trace.tail), ∃ m, r = NetResult.transportErr m :=
    fun r hr => h r (mem_of_tail net.trace r hr)
  obtain ⟨m2, h2⟩ := trySendTx_allFail
    { net with
        trace := net.trace.tail,
        sent := net.sent ++ [⟨"GET", apiUrl ++ "/balance/" ++ from_,
          none⟩],
        console := net.console ++ [.attemptFailed 1 m1],
        slept := net.slept ++ [2] } apiUrl sk from_ contract method params
    hh1
  have hh2 : ∀ r ∈ (net.trace.tail.tail), ∃ m,
      r = NetResult.transportErr m :=
    fun r hr => hh1 r (mem_of_tail net.trace.tail r hr)
  obtain ⟨m3, h3⟩ := trySendTx_allFail
    { net with
        trace := net.trace.tail.tail,
        sent := (net.sent ++ [⟨"GET", apiUrl ++ "/balance/" ++ from_,
          none⟩]) ++ [⟨"GET", apiUrl ++ "/balance/" ++ from_, none⟩],
        console := (net.console ++ [.attemptFailed 1 m1]) ++
          [.attemptFailed 2 m2],
        slept := (net.slept ++ [2]) ++ [2] } apiUrl sk from_ contract
    method params hh2
  refine ⟨m1, m2, m3, ?_⟩
  calc
    callContractTx net apiUrl sk from_ contract method params =
        callLoop apiUrl sk from_ contract method params 3 1 net := rfl
    _ = callLoop apiUrl sk from_ contract method params 2 2
        { net with
            trace := net.trace.tail,
            sent := net.sent ++ [⟨"GET", apiUrl ++ "/balance/" ++ from_,
              none⟩],
            console := net.console ++ [.attemptFailed 1 m1],
            slept := net.slept ++ [2] } :=
      callLoop_failStep apiUrl sk from_ contract method params 2 1 net
        (Err.network m1) _ h1
    _ = callLoop apiUrl sk from_ contract method params 1 3
        { net with
            trace := net.trace.tail.tail,
            sent := (net.sent ++ [⟨"GET", apiUrl ++ "/balance/" ++ from_,
              none⟩]) ++ [⟨"GET", apiUrl ++ "/balance/" ++ from_, none⟩],
            console := (net.console ++ [.attemptFailed 1 m1]) ++
              [.attemptFailed 2 m2],
            slept := (net.slept ++ [2]) ++ [2] } :=
      callLoop_failStep apiUrl sk from_ contract method params 1 2 _
        (Err.network m2) _ h2
    _ = callLoop apiUrl sk from_ contract method params 0 4
        { net with
            trace := net.trace.tail.tail.tail,
            sent := ((net.sent ++ [⟨"GET", apiUrl ++ "/balance/" ++ from_,
              none⟩]) ++ [⟨"GET", apiUrl ++ "/balance/" ++ from_, none⟩])
              ++ [⟨"GET", apiUrl ++ "/balance/" ++ from_, none⟩],
            console := ((net.console ++ [.attemptFailed 1 m1]) ++
              [.attemptFailed 2 m2]) ++ [.attemptFailed 3 m3],
            slept := ((net.slept ++ [2]) ++ [2]) ++ [2] } :=
      callLoop_failStep apiUrl sk from_ contract method params 0 3 _
        (Err.network m3) _ h3
    _ = (.error .retriesExhausted,
        { net with
            trace := net.trace.tail.tail.tail,
            sent := ((net.sent ++ [⟨"GET", apiUrl ++ "/balance/" ++ from_,
              none⟩]) ++ [⟨"GET", apiUrl ++ "/balance/" ++ from_, none⟩])
              ++ [⟨"GET", apiUrl ++ "/balance/" ++ from_, none⟩],
            console := ((net.console ++ [.attemptFailed 1 m1]) ++
              [.attemptFailed 2 m2]) ++ [.attemptFailed 3 m3],
            slept := ((net.slept ++ [2]) ++ [2]) ++ [2] }) := rfl

/-- C2 witness: a world with a single pending transport failure (so every
attempt fails) runs exactly 3 attempts and ends with retry exhaustion. -/
theorem retry_bound_three_attempts_witness :
    (∀ r ∈ (mkNet [.transportErr "down"] (fun _ => 0)).trace,
      ∃ m, r = NetResult.transportErr m) ∧
    ∃ e1 e2 e3,
      callContractTx (mkNet [.transportErr "down"] (fun _ => 0)) "rpc"
        ⟨fun _ => "sig", "pk"⟩ "a" "c" "m" [] =
        (.error .retriesExhausted,
         { mkNet [.transportErr "down"] (fun _ => 0) with
             trace := [],
             sent := (([] ++ [⟨"GET", "rpc" ++ "/balance/" ++ "a", none⟩])
               ++ [⟨"GET", "rpc" ++ "/balance/" ++ "a", none⟩]) ++
               [⟨"GET", "rpc" ++ "/balance/" ++ "a", none⟩],
             console := (([] ++ [.attemptFailed 1 e1]) ++
               [.attemptFailed 2 e2]) ++ [.attemptFailed 3 e3],
             slept := (([] ++ [2]) ++ [2]) ++ [2] }) := by
  constructor
  · intro r hr
    simp only [mkNet, List.mem_singleton] at hr
    exact ⟨"down", hr⟩
  · exact retry_bound_three_attempts (mkNet [.transportErr "down"]
      (fun _ => 0)) "rpc" ⟨fun _ => "sig", "pk"⟩ "a" "c" "m" []
      (by intro r hr
          simp only [mkNet, List.mem_singleton] at hr
          exact ⟨"down", hr⟩)

/-- Any error produced by `api_call` at a supported method is a
transport, HTTP-status, or decode error. -/
theorem apiCallResult_err_kinds (trace : List NetResult) (e : Err)
    (h : apiCallResult trace = .error e) :
    (∃ msg, e = Err.network msg) ∨
    (∃ status text, e = Err.api status text) ∨
    (∃ msg, e = Err.decode msg) := by
  cases trace with
  | nil =>
    simp only [apiCallResult] at h
    injection h with h
    exact Or.inl ⟨"no response", h.symm⟩
  | cons r rest =>
    cases r with
    | transportErr msg =>
      simp only [apiCallResult] at h
      injection h with h
      exact Or.inl ⟨msg, h.symm⟩
    | reply status text body =>
      simp only [apiCallResult] at h
      by_cases hs : status ≥ 400
      · rw [if_pos hs] at h
        injection h with h
        exact Or.inr (Or.inl ⟨status, text, h.symm⟩)
      · rw [if_neg hs] at h
        cases body with
        | none =>
          injection h with h
          exact Or.inr (Or.inr ⟨"invalid json body", h.symm⟩)
        | some j => exact absurd h (by simp)

/-- Any error produced by `get_balance` is a transport, HTTP-status, or
decode error. -/
theorem getBalanceResult_err_kinds (trace : List NetResult) (e : Err)
    (h : getBalanceResult trace = .error e) :
    (∃ msg, e = Err.network msg) ∨
    (∃ status text, e = Err.api status text) ∨
    (∃ msg, e = Err.decode msg) := by
  unfold getBalanceResult at h
  cases har : apiCallResult trace with
  | error e2 =>
    rw [har] at h
    have h2 : (Except.error e2 : Except Err (ℚ × Nat)) =
        Except.error e := h
    injection h2 with h2
    subst h2
    exact apiCallResult_err_kinds trace e2 har
  | ok j =>
    rw [har] at h
    have h2 : (match decodeBalance j with
        | none => Except.error (Err.decode "balance response shape")
        | some b =>
          match parseFloat b.balance_raw with
          | none => Except.error (Err.decode "invalid float literal")
          | some q => Except.ok (q / 1000000, b.nonce)) =
        Except.error e := h
    cases hd : decodeBalance j with
    | none =>
      rw [hd] at h2
      have h3 : (Except.error (Err.decode "balance response shape") :
          Except Err (ℚ × Nat)) = Except.error e := h2
      injection h3 with h3
      exact Or.inr (Or.inr ⟨"balance response shape", h3.symm⟩)
    | some b =>
      rw [hd] at h2
      have h3 : (match parseFloat b.balance_raw with
          | none => Except.error (Err.decode "invalid float literal")
          | some q => Except.ok (q / 1000000, b.nonce)) =
          Except.error e := h2
      cases hp : parseFloat b.balance_raw with
      | none =>
        rw [hp] at h3
        have h4 : (Except.error (Err.decode "invalid float literal") :
            Except Err (ℚ × Nat)) = Except.error e := h3
        injection h4 with h4
        exact Or.inr (Or.inr ⟨"invalid float literal", h4.symm⟩)
      | some q =>
        rw [hp] at h3
        have h4 : (Except.ok (q / 1000000, b.nonce) :
            Except Err (ℚ × Nat)) = Except.error e := h3
        exact absurd h4 (by simp)

/-- Any error that fails one submission attempt is a transport,
HTTP-status, or decode error — nothing else makes an attempt fail. -/
theorem trySendTx_err_kinds (net : Net) (apiUrl : String)
    (sk : SigningKey) (from_ contract method : String)
    (params : List String) (e : Err)
    (h : (trySendTx net apiUrl sk from_ contract method params).1 =
      .error e) :
    (∃ msg, e = Err.network msg) ∨
    (∃ status text, e = Err.api status text) ∨
    (∃ msg, e = Err.decode msg) := by
  unfold trySendTx getBalance at h
  cases hgb : getBalanceResult net.trace with
  | error e2 =>
    rw [hgb] at h
    have h2 : (Except.error e2 : Except Err String) = Except.error e := h
    injection h2 with h2
    subst h2
    exact getBalanceResult_err_kinds net.trace e2 hgb
  | ok v =>
    obtain ⟨q, n⟩ := v
    rw [hgb] at h
    have h2 : trySendTxResult (apiCallResult net.trace.tail) =
        Except.error e := h
    cases har : apiCallResult net.trace.tail with
    | error e2 =>
      rw [har] at h2
      have h3 : (Except.error e2 : Except Err String) =
          Except.error e := h2
      injection h3 with h3
      subst h3
      exact apiCallResult_err_kinds net.trace.tail e2 har
    | ok res =>
      rw [har] at h2
      have h3 : (Except.ok ((res.getIdx "tx_hash").asStr.getD "") :
          Except Err String) = Except.error e := h2
      exact absurd h3 (by simp)

/-! ### C1 -/

/-- C1 counterexample: when the call-contract endpoint answers `200 \x7b\x7d`
(no `tx_hash` field), the submitter does NOT count the attempt as failed:
it returns `Ok ""` immediately — no failure is reported, no backoff sleep
happens, and no second attempt is made (exactly the one GET and one POST
of the first attempt are issued). -/
theorem missing_tx_hash_not_retried :
    (callContractTx (mkNet [balReply "0" 0, .reply 200 ""
        (some (.obj []))] (fun _ => 0)) "rpc" ⟨fun _ => "sig", "pk"⟩
      "a" "c" "m" []).1 = .ok "" ∧
    (callContractTx (mkNet [balReply "0" 0, .reply 200 ""
        (some (.obj []))] (fun _ => 0)) "rpc" ⟨fun _ => "sig", "pk"⟩
      "a" "c" "m" []).2.console = [] ∧
    (callContractTx (mkNet [balReply "0" 0, .reply 200 ""
        (some (.obj []))] (fun _ => 0)) "rpc" ⟨fun _ => "sig", "pk"⟩
      "a" "c" "m" []).2.slept = [] ∧
    (callContractTx (mkNet [balReply "0" 0, .reply 200 ""
        (some (.obj []))] (fun _ => 0)) "rpc" ⟨fun _ => "sig", "pk"⟩
      "a" "c" "m" []).2.sent.length = 2 := by
  refine ⟨rfl, rfl, rfl, rfl⟩

/-- C1 (amended): a call-contract reply whose `tx_hash` is missing, not a
string, or the empty string (hypothesis: `as_str().unwrap_or("")` is
empty, which covers all three) makes the attempt SUCCEED with the empty
string: the submitter returns `Ok ""` after the first attempt, reporting
no failure, sleeping no backoff and issuing no further requests; and only
transport, HTTP ≥ 400, or decode errors ever fail an attempt (second
conjunct, over every world). -/
theorem tx_hash_missing_yields_ok_empty (net : Net) (apiUrl : String)
    (sk : SigningKey) (from_ contract method : String)
    (params : List String) (s t1 t2 : String) (n : Nat) (q : ℚ) (j : Json)
    (rest : List NetResult) (hn : n < 18446744073709551616)
    (hq : parseFloat s = some q)
    (hj : (j.getIdx "tx_hash").asStr.getD "" = "")
    (ht : net.trace = .reply 200 t1 (some (balBody s n)) ::
      .reply 200 t2 (some j) :: rest) :
    callContractTx net apiUrl sk from_ contract method params =
      (.ok "",
       { net with
           trace := rest,
           tick := net.tick + 1,
           sent := (net.sent ++ [⟨"GET", apiUrl ++ "/balance/" ++ from_,
             none⟩]) ++ [⟨"POST", apiUrl ++ "/call-contract",
             some (callBody contract method params from_ n
               (net.clock net.tick)
               (signTx sk (attemptTx from_ contract n
                 (net.clock net.tick))) sk.pubKeyB64)⟩] }) ∧
    (∀ (net2 : Net) (e : Err),
      (trySendTx net2 apiUrl sk from_ contract method params).1 =
        .error e →
      (∃ msg, e = Err.network msg) ∨
      (∃ status text, e = Err.api status text) ∨
      (∃ msg, e = Err.decode msg)) := by
  constructor
  · have a1 := trySendTx_reply net apiUrl sk from_ contract method params
      s t1 n q (.reply 200 t2 (some j) :: rest) hn hq ht
    rw [show apiCallResult (.reply 200 t2 (some j) :: rest) = .ok j from
      rfl] at a1
    rw [show trySendTxResult (.ok j) =
      .ok ((j.getIdx "tx_hash").asStr.getD "") from rfl, hj] at a1
    exact callLoop_okStep apiUrl sk from_ contract method params 2 1 net
      "" _ a1
  · intro net2 e he
    exact trySendTx_err_kinds net2 apiUrl sk from_ contract method params
      e he

/-- C1 witness: concrete runs of the amended statement on the reply
`\x7b\x7d` (missing `tx_hash`) and on a reply with the present-but-empty
`tx_hash` `""` — both succeed immediately with the empty string. -/
theorem tx_hash_missing_yields_ok_empty_witness :
    (0 : Nat) < 18446744073709551616 ∧
    parseFloat "0" = some 0 ∧
    ((Json.obj []).getIdx "tx_hash").asStr.getD "" = "" ∧
    ((Json.obj [("tx_hash", .str "")]).getIdx "tx_hash").asStr.getD "" =
      "" ∧
    (mkNet [balReply "0" 0, .reply 200 "" (some (.obj []))]
      (fun _ => 0)).trace = .reply 200 "" (some (balBody "0" 0)) ::
      .reply 200 "" (some (.obj [])) :: [] ∧
    (callContractTx (mkNet [balReply "0" 0, .reply 200 ""
        (some (.obj []))] (fun _ => 0)) "rpc" ⟨fun _ => "sig", "pk"⟩
      "a" "c" "m" []).1 = .ok "" ∧
    (callContractTx (mkNet [balReply "0" 0, .reply 200 ""
        (some (.obj [("tx_hash", .str "")]))] (fun _ => 0)) "rpc"
      ⟨fun _ => "sig", "pk"⟩ "a" "c" "m" []).1 = .ok "" := by
  refine ⟨by norm_num, by decide, rfl, rfl, rfl, ?_, ?_⟩
  · rw [(tx_hash_missing_yields_ok_empty (mkNet [balReply "0" 0,
      .reply 200 "" (some (.obj []))] (fun _ => 0)) "rpc"
      ⟨fun _ => "sig", "pk"⟩ "a" "c" "m" [] "0" "" "" 0 0 (.obj []) []
      (by norm_num) (by decide) rfl rfl).1]
  · rw [(tx_hash_missing_yields_ok_empty (mkNet [balReply "0" 0,
      .reply 200 "" (some (.obj [("tx_hash", .str "")]))] (fun _ => 0))
      "rpc" ⟨fun _ => "sig", "pk"⟩ "a" "c" "m" [] "0" "" "" 0 0
      (.obj [("tx_hash", .str "")]) []
      (by norm_num) (by decide) rfl rfl).1]

/-! ### C3 -/

/-- C3: each attempt fetches the account state within that same attempt
and submits `observed nonce + 1`; when a first attempt fails at the submit
stage and a second attempt runs, the second attempt's nonce comes from a
fresh balance fetch (`n2`, not `n1`), its timestamp is a fresh clock
reading, and its signature is rebuilt over the fresh transaction. The
`callBody`/`attemptTx` conjunct exhibits that the submitted nonce is
exactly `observed + 1` both in the POST body and in the signed map. -/
theorem nonce_refetched_per_attempt (net : Net) (apiUrl : String)
    (sk : SigningKey) (from_ contract method : String)
    (params : List String) (s1 s2 t1 t2 t3 msg : String) (n1 n2 : Nat)
    (q1 q2 : ℚ) (j : Json)
    (hn1 : n1 < 18446744073709551616) (hn2 : n2 < 18446744073709551616)
    (hq1 : parseFloat s1 = some q1) (hq2 : parseFloat s2 = some q2)
    (ht : net.trace = [.reply 200 t1 (some (balBody s1 n1)),
      .transportErr msg, .reply 200 t2 (some (balBody s2 n2)),
      .reply 200 t3 (some j)]) :
    (callContractTx net apiUrl sk from_ contract method params).1 =
      .ok ((j.getIdx "tx_hash").asStr.getD "") ∧
    (callContractTx net apiUrl sk from_ contract method params).2.sent =
      net.sent ++
        [⟨"GET", apiUrl ++ "/balance/" ++ from_, none⟩,
         ⟨"POST", apiUrl ++ "/call-contract", some (callBody contract
           method params from_ n1 (net.clock net.tick)
           (signTx sk (attemptTx from_ contract n1 (net.clock net.tick)))
           sk.pubKeyB64)⟩,
         ⟨"GET", apiUrl ++ "/balance/" ++ from_, none⟩,
         ⟨"POST", apiUrl ++ "/call-contract", some (callBody contract
           method params from_ n2 (net.clock (net.tick + 1))
           (signTx sk (attemptTx from_ contract n2
             (net.clock (net.tick + 1)))) sk.pubKeyB64)⟩] ∧
    (∀ (nonce : Nat) (ts : ℚ) (sig pk : String),
      (callBody contract method params from_ nonce ts sig pk).getIdx
        "nonce" = .num (nonce + 1) ∧
      (attemptTx from_ contract nonce ts).nonce = toString (nonce + 1)) := by
  have a1 := trySendTx_reply net apiUrl sk from_ contract method params
    s1 t1 n1 q1 [.transportErr msg, .reply 200 t2 (some (balBody s2 n2)),
      .reply 200 t3 (some j)] hn1 hq1 ht
  rw [show apiCallResult [.transportErr msg,
      .reply 200 t2 (some (balBody s2 n2)), .reply 200 t3 (some j)] =
      .error (.network msg) from rfl] at a1
  rw [show trySendTxResult (Except.error (Err.network msg)) =
      Except.error (Err.network msg) from rfl] at a1
  have a2 := trySendTx_reply
    { net with
        trace := [.reply 200 t2 (some (balBody s2 n2)),
          .reply 200 t3 (some j)],
        tick := net.tick + 1,
        sent := (net.sent ++ [⟨"GET", apiUrl ++ "/balance/" ++ from_,
          none⟩]) ++ [⟨"POST", apiUrl ++ "/call-contract",
          some (callBody contract method params from_ n1
            (net.clock net.tick)
            (signTx sk (attemptTx from_ contract n1 (net.clock net.tick)))
            sk.pubKeyB64)⟩],
        console := net.console ++ [.attemptFailed 1 msg],
        slept := net.slept ++ [2] } apiUrl sk from_ contract method params
    s2 t2 n2 q2 [.reply 200 t3 (some j)] hn2 hq2 rfl
  rw [show apiCallResult [.reply 200 t3 (some j)] = .ok j from rfl] at a2
  rw [show trySendTxResult (.ok j) =
    .ok ((j.getIdx "tx_hash").asStr.getD "") from rfl] at a2
  have hfinal : callContractTx net apiUrl sk from_ contract method
      params =
      (.ok ((j.getIdx "tx_hash").asStr.getD ""),
       { net with
           trace := [],
           tick := net.tick + 2,
           sent := ((((net.sent ++ [⟨"GET", apiUrl ++ "/balance/" ++
             from_, none⟩]) ++ [⟨"POST", apiUrl ++ "/call-contract",
             some (callBody contract method params from_ n1
               (net.clock net.tick)
               (signTx sk (attemptTx from_ contract n1
                 (net.clock net.tick))) sk.pubKeyB64)⟩]) ++
             [⟨"GET", apiUrl ++ "/balance/" ++ from_, none⟩]) ++
             [⟨"POST", apiUrl ++ "/call-contract",
             some (callBody contract method params from_ n2
               (net.clock (net.tick + 1))
               (signTx sk (attemptTx from_ contract n2
                 (net.clock (net.tick + 1)))) sk.pubKeyB64)⟩]),
           console := net.console ++ [.attemptFailed 1 msg],
           slept := net.slept ++ [2] }) := by
    calc
      callContractTx net apiUrl sk from_ contract method params =
          callLoop apiUrl sk from_ contract method params 3 1 net := rfl
      _ = callLoop apiUrl sk from_ contract method params 2 2
          { net with
              trace := [.reply 200 t2 (some (balBody s2 n2)),
                .reply 200 t3 (some j)],
              tick := net.tick + 1,
              sent := (net.sent ++ [⟨"GET", apiUrl ++ "/balance/" ++
                from_, none⟩]) ++ [⟨"POST", apiUrl ++ "/call-contract",
                some (callBody contract method params from_ n1
                  (net.clock net.tick)
                  (signTx sk (attemptTx from_ contract n1
                    (net.clock net.tick))) sk.pubKeyB64)⟩],
              console := net.console ++ [.attemptFailed 1 msg],
              slept := net.slept ++ [2] } :=
        callLoop_failStep apiUrl sk from_ contract method params 2 1 net
          (Err.network msg) _ a1
      _ = _ :=
        callLoop_okStep apiUrl sk from_ contract method params 1 2 _
          ((j.getIdx "tx_hash").asStr.getD "") _ a2
  refine ⟨by rw [hfinal], ?_, ?_⟩
  · rw [hfinal]
    simp [List.append_assoc]
  · intro nonce ts sig pk
    constructor
    · simp [callBody, Json.getIdx, List.lookup]
    · rfl

/-- C3 witness: a concrete two-attempt run — first balance fetch observes
nonce 7, the submit hits a transport failure, the retry re-fetches and
observes nonce 9, submits 10, and succeeds with hash `"h"`. -/
theorem nonce_refetched_per_attempt_witness :
    (7 : Nat) < 18446744073709551616 ∧
    (9 : Nat) < 18446744073709551616 ∧
    parseFloat "1" = some 1 ∧
    (mkNet [balReply "1" 7, .transportErr "boom", balReply "1" 9,
      .reply 200 "" (some (.obj [("tx_hash", .str "h")]))]
      (fun k => (k : ℚ))).trace =
      [.reply 200 "" (some (balBody "1" 7)), .transportErr "boom",
       .reply 200 "" (some (balBody "1" 9)),
       .reply 200 "" (some (.obj [("tx_hash", .str "h")]))] ∧
    (callContractTx (mkNet [balReply "1" 7, .transportErr "boom",
        balReply "1" 9, .reply 200 "" (some (.obj [("tx_hash",
        .str "h")]))] (fun k => (k : ℚ))) "rpc" ⟨fun _ => "sig", "pk"⟩
      "a" "c" "m" []).1 = .ok "h" := by
  refine ⟨by norm_num, by norm_num, by decide, rfl, ?_⟩
  rw [(nonce_refetched_per_attempt (mkNet [balReply "1" 7,
    .transportErr "boom", balReply "1" 9, .reply 200 ""
    (some (.obj [("tx_hash", .str "h")]))] (fun k => (k : ℚ))) "rpc"
    ⟨fun _ => "sig", "pk"⟩ "a" "c" "m" [] "1" "1" "" "" "" "boom" 7 9 1 1
    (.obj [("tx_hash", .str "h")]) (by norm_num) (by norm_num)
    (by decide) (by decide) rfl).1]
  rfl

/-! ### C9 -/

/-- C9: within one submission attempt, the nonce and timestamp embedded in
the canonical message that gets signed are exactly the nonce and timestamp
placed in the POST body: the issued call-contract request carries
`nonce = n + 1` and the fresh clock reading `ts`, its signature field is
the signature over `canonicalBlob (attemptTx from_ contract n ts)`, and
that signed map's `nonce`/`timestamp` entries are the decimal renderings
of the very same `n + 1` and `ts`. -/
theorem signature_covers_submitted_values (net : Net) (apiUrl : String)
    (sk : SigningKey) (from_ contract method : String)
    (params : List String) (s text : String) (n : Nat) (q : ℚ)
    (rest : List NetResult) (hn : n < 18446744073709551616)
    (hq : parseFloat s = some q)
    (ht : net.trace = .reply 200 text (some (balBody s n)) :: rest) :
    (trySendTx net apiUrl sk from_ contract method params).2.sent =
      net.sent ++
        [⟨"GET", apiUrl ++ "/balance/" ++ from_, none⟩,
         ⟨"POST", apiUrl ++ "/call-contract",
          some (callBody contract method params from_ n
            (net.clock net.tick)
            (signTx sk (attemptTx from_ contract n (net.clock net.tick)))
            sk.pubKeyB64)⟩] ∧
    (callBody contract method params from_ n (net.clock net.tick)
      (signTx sk (attemptTx from_ contract n (net.clock net.tick)))
      sk.pubKeyB64).getIdx "nonce" = .num (n + 1) ∧
    (attemptTx from_ contract n (net.clock net.tick)).nonce =
      toString (n + 1) ∧
    (callBody contract method params from_ n (net.clock net.tick)
      (signTx sk (attemptTx from_ contract n (net.clock net.tick)))
      sk.pubKeyB64).getIdx "timestamp" = .num (net.clock net.tick) ∧
    (attemptTx from_ contract n (net.clock net.tick)).timestamp =
      toString (net.clock net.tick) ∧
    (callBody contract method params from_ n (net.clock net.tick)
      (signTx sk (attemptTx from_ contract n (net.clock net.tick)))
      sk.pubKeyB64).getIdx "signature" =
      .str (sk.sig (canonicalBlob (attemptTx from_ contract n
        (net.clock net.tick)))) := by
  refine ⟨?_, ?_, rfl, ?_, rfl, ?_⟩
  · rw [trySendTx_reply net apiUrl sk from_ contract method params s text
      n q rest hn hq ht]
    simp [List.append_assoc]
  · simp [callBody, Json.getIdx, List.lookup]
  · simp [callBody, Json.getIdx, List.lookup]
  · simp [callBody, Json.getIdx, List.lookup, signTx]

/-- C9 witness: a concrete attempt observing nonce 7 at clock reading 5,
with the identity signing function so the covered message is visible. -/
theorem signature_covers_submitted_values_witness :
    (7 : Nat) < 18446744073709551616 ∧
    parseFloat "1" = some 1 ∧
    (mkNet [balReply "1" 7] (fun _ => 5)).trace =
      .reply 200 "" (some (balBody "1" 7)) :: [] ∧
    ((trySendTx (mkNet [balReply "1" 7] (fun _ => 5)) "rpc"
        ⟨fun m => m, "pk"⟩ "a" "c" "m" []).2.sent =
      [] ++
        [⟨"GET", "rpc" ++ "/balance/" ++ "a", none⟩,
         ⟨"POST", "rpc" ++ "/call-contract",
          some (callBody "c" "m" [] "a" 7 5
            (signTx ⟨fun m => m, "pk"⟩ (attemptTx "a" "c" 7 5)) "pk")⟩] ∧
    (callBody "c" "m" [] "a" 7 5
      (signTx ⟨fun m => m, "pk"⟩ (attemptTx "a" "c" 7 5)) "pk").getIdx
      "nonce" = .num (7 + 1) ∧
    (attemptTx "a" "c" 7 5).nonce = toString (7 + 1) ∧
    (callBody "c" "m" [] "a" 7 5
      (signTx ⟨fun m => m, "pk"⟩ (attemptTx "a" "c" 7 5)) "pk").getIdx
      "timestamp" = .num 5 ∧
    (attemptTx "a" "c" 7 5).timestamp = toString (5 : ℚ) ∧
    (callBody "c" "m" [] "a" 7 5
      (signTx ⟨fun m => m, "pk"⟩ (attemptTx "a" "c" 7 5)) "pk").getIdx
      "signature" =
      .str ((⟨fun m => m, "pk"⟩ : SigningKey).sig
        (canonicalBlob (attemptTx "a" "c" 7 5)))) := by
  refine ⟨by norm_num, by decide, rfl, ?_⟩
  exact signature_covers_submitted_values (mkNet [balReply "1" 7]
    (fun _ => 5)) "rpc" ⟨fun m => m, "pk"⟩ "a" "c" "m" [] "1" "" 7 1 []
    (by norm_num) (by decide) rfl

/-! ### C4 -/

/-- Strings with the same character data are equal. -/
theorem strDataInj {a b : String} (h : a.data = b.data) : a = b := by
  cases a
  cases b
  exact congrArg String.mk h

/-- The canonical blob's character data, fully right-associated. -/
theorem canonicalBlob_data (t : Tx) :
    (canonicalBlob t).data =
      "\x7b\"from\":\"".data ++ (t.from_.data ++ ("\",\"to_\":\"".data ++
        (t.to_.data ++ ("\",\"amount\":\"".data ++ (t.amount.data ++
          ("\",\"nonce\":".data ++ (t.nonce.data ++ (",\"ou\":\"".data ++
            (t.ou.data ++ ("\",\"timestamp\":".data ++
              (t.timestamp.data ++ "\x7d".data))))))))))) := by
  simp [canonicalBlob, String.data_append, List.append_assoc]

/-- Equal fields give byte-identical canonical output. -/
theorem canonicalBlob_deterministic (t1 t2 : Tx)
    (h1 : t1.from_ = t2.from_) (h2 : t1.to_ = t2.to_)
    (h3 : t1.amount = t2.amount) (h4 : t1.nonce = t2.nonce)
    (h5 : t1.ou = t2.ou) (h6 : t1.timestamp = t2.timestamp) :
    canonicalBlob t1 = canonicalBlob t2 := by
  unfold canonicalBlob
  rw [h1, h2, h3, h4, h5, h6]

/-- Sensitivity in the `from` field. -/
theorem canonicalBlob_inj_from (t1 t2 : Tx)
    (hb : canonicalBlob t1 = canonicalBlob t2)
    (h2 : t1.to_ = t2.to_) (h3 : t1.amount = t2.amount)
    (h4 : t1.nonce = t2.nonce) (h5 : t1.ou = t2.ou)
    (h6 : t1.timestamp = t2.timestamp) : t1.from_ = t2.from_ := by
  have h := congrArg String.data hb
  rw [canonicalBlob_data, canonicalBlob_data, h2, h3, h4, h5, h6] at h
  replace h := List.append_cancel_left h
  replace h := List.append_cancel_right h
  exact strDataInj h

/-- Sensitivity in the `to_` field. -/
theorem canonicalBlob_inj_to (t1 t2 : Tx)
    (hb : canonicalBlob t1 = canonicalBlob t2)
    (h1 : t1.from_ = t2.from_) (h3 : t1.amount = t2.amount)
    (h4 : t1.nonce = t2.nonce) (h5 : t1.ou = t2.ou)
    (h6 : t1.timestamp = t2.timestamp) : t1.to_ = t2.to_ := by
  have h := congrArg String.data hb
  rw [canonicalBlob_data, canonicalBlob_data, h1, h3, h4, h5, h6] at h
  replace h := List.append_cancel_left h
  replace h := List.append_cancel_left h
  replace h := List.append_cancel_left h
  replace h := List.append_cancel_right h
  exact strDataInj h

/-- Sensitivity in the `amount` field. -/
theorem canonicalBlob_inj_amount (t1 t2 : Tx)
    (hb : canonicalBlob t1 = canonicalBlob t2)
    (h1 : t1.from_ = t2.from_) (h2 : t1.to_ = t2.to_)
    (h4 : t1.nonce = t2.nonce) (h5 : t1.ou = t2.ou)
    (h6 : t1.timestamp = t2.timestamp) : t1.amount = t2.amount := by
  have h := congrArg String.data hb
  rw [canonicalBlob_data, canonicalBlob_data, h1, h2, h4, h5, h6] at h
  replace h := List.append_cancel_left h
  replace h := List.append_cancel_left h
  replace h := List.append_cancel_left h
  replace h := List.append_cancel_left h
  replace h := List.append_cancel_left h
  replace h := List.append_cancel_right h
  exact strDataInj h

/-- Sensitivity in the `nonce` field. -/
theorem canonicalBlob_inj_nonce (t1 t2 : Tx)
    (hb : canonicalBlob t1 = canonicalBlob t2)
    (h1 : t1.from_ = t2.from_) (h2 : t1.to_ = t2.to_)
    (h3 : t1.amount = t2.amount) (h5 : t1.ou = t2.ou)
    (h6 : t1.timestamp = t2.timestamp) : t1.nonce = t2.nonce := by
  have h := congrArg String.data hb
  rw [canonicalBlob_data, canonicalBlob_data, h1, h2, h3, h5, h6] at h
  replace h := List.append_cancel_left h
  replace h := List.append_cancel_left h
  replace h := List.append_cancel_left h
  replace h := List.append_cancel_left h
  replace h := List.append_cancel_left h
  replace h := List.append_cancel_left h
  replace h := List.append_cancel_left h
  replace h := List.append_cancel_right h
  exact strDataInj h

/-- Sensitivity in the `ou` field. -/
theorem canonicalBlob_inj_ou (t1 t2 : Tx)
    (hb : canonicalBlob t1 = canonicalBlob t2)
    (h1 : t1.from_ = t2.from_) (h2 : t1.to_ = t2.to_)
    (h3 : t1.amount = t2.amount) (h4 : t1.nonce = t2.nonce)
    (h6 : t1.timestamp = t2.timestamp) : t1.ou = t2.ou := by
  have h := congrArg String.data hb
  rw [canonicalBlob_data, canonicalBlob_data, h1, h2, h3, h4, h6] at h
  replace h := List.append_cancel_left h
  replace h := List.append_cancel_left h
  replace h := List.append_cancel_left h
  replace h := List.append_cancel_left h
  replace h := List.append_cancel_left h
  replace h := List.append_cancel_left h
  replace h := List.append_cancel_left h
  replace h := List.append_cancel_left h
  replace h := List.append_cancel_left h
  replace h := List.append_cancel_right h
  exact strDataInj h

/-- Sensitivity in the `timestamp` field. -/
theorem canonicalBlob_inj_timestamp (t1 t2 : Tx)
    (hb : canonicalBlob t1 = canonicalBlob t2)
    (h1 : t1.from_ = t2.from_) (h2 : t1.to_ = t2.to_)
    (h3 : t1.amount = t2.amount) (h4 : t1.nonce = t2.nonce)
    (h5 : t1.ou = t2.ou) : t1.timestamp = t2.timestamp := by
  have h := congrArg String.data hb
  rw [canonicalBlob_data, canonicalBlob_data, h1, h2, h3, h4, h5] at h
  replace h := List.append_cancel_left h
  replace h := List.append_cancel_left h
  replace h := List.append_cancel_left h
  replace h := List.append_cancel_left h
  replace h := List.append_cancel_left h
  replace h := List.append_cancel_left h
  replace h := List.append_cancel_left h
  replace h := List.append_cancel_left h
  replace h := List.append_cancel_left h
  replace h := List.append_cancel_left h
  replace h := List.append_cancel_left h
  replace h := List.append_cancel_right h
  exact strDataInj h

/-- C4: canonicalization is deterministic — transactions with identical
`from`, `to_`, `amount`, `nonce`, `ou`, `timestamp` fields produce
byte-identical canonical output — and, with the other five fields fixed,
changing any one of the six fields changes the canonical output (stated
contrapositively: equal output and five equal fields force the sixth
equal). -/
theorem canonical_deterministic_and_field_sensitive (t1 t2 : Tx) :
    ((t1.from_ = t2.from_ ∧ t1.to_ = t2.to_ ∧ t1.amount = t2.amount ∧
      t1.nonce = t2.nonce ∧ t1.ou = t2.ou ∧
      t1.timestamp = t2.timestamp) →
      canonicalBlob t1 = canonicalBlob t2) ∧
    (canonicalBlob t1 = canonicalBlob t2 →
      ((t1.to_ = t2.to_ ∧ t1.amount = t2.amount ∧ t1.nonce = t2.nonce ∧
        t1.ou = t2.ou ∧ t1.timestamp = t2.timestamp) →
        t1.from_ = t2.from_) ∧
      ((t1.from_ = t2.from_ ∧ t1.amount = t2.amount ∧
        t1.nonce = t2.nonce ∧ t1.ou = t2.ou ∧
        t1.timestamp = t2.timestamp) → t1.to_ = t2.to_) ∧
      ((t1.from_ = t2.from_ ∧ t1.to_ = t2.to_ ∧ t1.nonce = t2.nonce ∧
        t1.ou = t2.ou ∧ t1.timestamp = t2.timestamp) →
        t1.amount = t2.amount) ∧
      ((t1.from_ = t2.from_ ∧ t1.to_ = t2.to_ ∧ t1.amount = t2.amount ∧
        t1.ou = t2.ou ∧ t1.timestamp = t2.timestamp) →
        t1.nonce = t2.nonce) ∧
      ((t1.from_ = t2.from_ ∧ t1.to_ = t2.to_ ∧ t1.amount = t2.amount ∧
        t1.nonce = t2.nonce ∧ t1.timestamp = t2.timestamp) →
        t1.ou = t2.ou) ∧
      ((t1.from_ = t2.from_ ∧ t1.to_ = t2.to_ ∧ t1.amount = t2.amount ∧
        t1.nonce = t2.nonce ∧ t1.ou = t2.ou) →
        t1.timestamp = t2.timestamp)) := by
  constructor
  · rintro ⟨h1, h2, h3, h4, h5, h6⟩
    exact canonicalBlob_deterministic t1 t2 h1 h2 h3 h4 h5 h6
  · intro hb
    refine ⟨?_, ?_, ?_, ?_, ?_, ?_⟩
    · rintro ⟨h2, h3, h4, h5, h6⟩
      exact canonicalBlob_inj_from t1 t2 hb h2 h3 h4 h5 h6
    · rintro ⟨h1, h3, h4, h5, h6⟩
      exact canonicalBlob_inj_to t1 t2 hb h1 h3 h4 h5 h6
    · rintro ⟨h1, h2, h4, h5, h6⟩
      exact canonicalBlob_inj_amount t1 t2 hb h1 h2 h4 h5 h6
    · rintro ⟨h1, h2, h3, h5, h6⟩
      exact canonicalBlob_inj_nonce t1 t2 hb h1 h2 h3 h5 h6
    · rintro ⟨h1, h2, h3, h4, h6⟩
      exact canonicalBlob_inj_ou t1 t2 hb h1 h2 h3 h4 h6
    · rintro ⟨h1, h2, h3, h4, h5⟩
      exact canonicalBlob_inj_timestamp t1 t2 hb h1 h2 h3 h4 h5

/-- C4 witness: determinism at a concrete transaction, and a nonce change
(8 vs 9, other fields fixed) changes the canonical output. -/
theorem canonical_deterministic_and_field_sensitive_witness :
    canonicalBlob ⟨"a", "c", "0", "8", "1", "7.5"⟩ =
      canonicalBlob ⟨"a", "c", "0", "8", "1", "7.5"⟩ ∧
    canonicalBlob ⟨"a", "c", "0", "8", "1", "7.5"⟩ ≠
      canonicalBlob ⟨"a", "c", "0", "9", "1", "7.5"⟩ := by
  constructor
  · exact (canonical_deterministic_and_field_sensitive
      ⟨"a", "c", "0", "8", "1", "7.5"⟩ ⟨"a", "c", "0", "8", "1", "7.5"⟩).1
      ⟨rfl, rfl, rfl, rfl, rfl, rfl⟩
  · intro hb
    have h8 : ("8" : String) = "9" :=
      ((canonical_deterministic_and_field_sensitive
        ⟨"a", "c", "0", "8", "1", "7.5"⟩
        ⟨"a", "c", "0", "9", "1", "7.5"⟩).2 hb).2.2.2.1
        ⟨rfl, rfl, rfl, rfl, rfl⟩
    exact absurd h8 (by decide)

/-! ### C10 -/

/-- Generation of a single parameter value under a positive bound. -/
theorem genOne_some (rng : Nat → Nat) (k : Nat) (p : Param)
    (h : p.example_ = none → 1 ≤ p.max.getD 100) :
    ∃ v k', genOne rng k p = some (v, k') ∧ ParamMatches p v := by
  cases hex : p.example_ with
  | some ex =>
    refine ⟨ex, k, ?_, ?_⟩
    · unfold genOne
      rw [hex]
    · unfold ParamMatches
      rw [hex]
  | none =>
    have hmax : 1 ≤ p.max.getD 100 := h hex
    refine ⟨toString (1 + rng k % p.max.getD 100), k + 1, ?_, ?_⟩
    · unfold genOne
      rw [hex]
      simp only [if_neg (by omega : ¬(p.max.getD 100 < 1))]
    · unfold ParamMatches
      rw [hex]
      refine ⟨1 + rng k % p.max.getD 100, by omega, ?_, rfl⟩
      have := Nat.mod_lt (rng k) (show 0 < p.max.getD 100 by omega)
      omega

/-- Generation of a full parameter list under positive bounds. -/
theorem generateParams_some (rng : Nat → Nat) (k : Nat) (ps : List Param)
    (h : ∀ p ∈ ps, p.example_ = none → 1 ≤ p.max.getD 100) :
    ∃ vs k', generateParams rng k ps = some (vs, k') ∧
      List.Forall₂ ParamMatches ps vs := by
  induction ps generalizing k with
  | nil => exact ⟨[], k, rfl, .nil⟩
  | cons p ps ih =>
    obtain ⟨v, k1, hg, hm⟩ := genOne_some rng k p
      (h p (List.mem_cons_self p ps))
    obtain ⟨vs, k2, hgs, hms⟩ := ih k1
      (fun p' hp' => h p' (List.mem_cons_of_mem p hp'))
    refine ⟨v :: vs, k2, ?_, .cons hm hms⟩
    simp only [generateParams, hg, hgs]

/-- C10: parameter generation is total exactly when every parameter
without a literal example has a positive effective bound: under that
precondition every generated value is the declared example or the decimal
string of an integer in `[1, max]` (`[1, 100]` when no bound is declared),
and a parameter declaring `max = 0` makes the generator panic (modelled as
`none`) on the empty range `1..=0`. -/
theorem generateParams_total_iff_bounds (rng : Nat → Nat) (k : Nat)
    (ps : List Param) :
    ((∀ p ∈ ps, p.example_ = none → 1 ≤ p.max.getD 100) →
      ∃ vs k', generateParams rng k ps = some (vs, k') ∧
        List.Forall₂ ParamMatches ps vs) ∧
    (∀ p : Param, p.example_ = none → p.max = some 0 →
      generateParams rng k (p :: ps) = none) := by
  constructor
  · exact generateParams_some rng k ps
  · intro p hex hmax
    have hg : genOne rng k p = none := by
      unfold genOne
      rw [hex, hmax]
      simp
    unfold generateParams
    rw [hg]

/-- C10 witness: an example parameter is copied verbatim, a `max = 5`
parameter yields an integer string in `[1, 5]`, and a `max = 0` parameter
panics. -/
theorem generateParams_total_iff_bounds_witness :
    (∀ p ∈ [(⟨"a", "string", some "ex", none⟩ : Param),
      ⟨"b", "number", none, some 5⟩],
      p.example_ = none → 1 ≤ p.max.getD 100) ∧
    (∃ vs k', generateParams (fun _ => 11) 0
        [(⟨"a", "string", some "ex", none⟩ : Param),
         ⟨"b", "number", none, some 5⟩] = some (vs, k') ∧
      List.Forall₂ ParamMatches
        [(⟨"a", "string", some "ex", none⟩ : Param),
         ⟨"b", "number", none, some 5⟩] vs) ∧
    ((⟨"z", "number", none, some 0⟩ : Param)).example_ = none ∧
    ((⟨"z", "number", none, some 0⟩ : Param)).max = some 0 ∧
    generateParams (fun _ => 11) 0
      [(⟨"z", "number", none, some 0⟩ : Param)] = none := by
  have hb : ∀ p ∈ [(⟨"a", "string", some "ex", none⟩ : Param),
      ⟨"b", "number", none, some 5⟩],
      p.example_ = none → 1 ≤ p.max.getD 100 := by
    intro p hp hex
    simp only [List.mem_cons, List.mem_singleton] at hp
    rcases hp with rfl | hp
    · simp at hex
    · rcases hp with rfl | hp
      · simp
      · simp at hp
  refine ⟨hb, ?_, rfl, rfl, ?_⟩
  · exact (generateParams_total_iff_bounds (fun _ => 11) 0 _).1 hb
  · exact (generateParams_total_iff_bounds (fun _ => 11) 0 []).2
      ⟨"z", "number", none, some 0⟩ rfl rfl

/-! ### C7 -/

/-- C7: dispatching a view-kind method performs no signing and no nonce
fetch: the step's entire outcome (result, state, requests, logs) is
independent of the signing key, and when the step completes it has issued
exactly one request — the call-view POST, whose body is a function only of
the contract address, method name, generated params and caller — while the
clock was never read (no timestamp, hence no transaction was built). -/
theorem view_path_ignores_signing_key (rng : Nat → Nat) (wallet : Wallet)
    (sk1 sk2 : SigningKey) (contract : String) (st : Net × Nat)
    (m : Method) (hview : m.method_type = "view") :
    dispatchStep rng wallet sk1 contract st m =
      dispatchStep rng wallet sk2 contract st m ∧
    (∀ st', dispatchStep rng wallet sk1 contract st m = some st' →
      ∃ params k', generateParams rng st.2 m.params = some (params, k') ∧
        st'.2 = k' ∧
        st'.1.sent = st.1.sent ++ [⟨"POST",
          wallet.rpc ++ "/contract/call-view",
          some (viewBody contract m.name params wallet.addr)⟩] ∧
        st'.1.tick = st.1.tick) := by
  obtain ⟨net, k⟩ := st
  constructor
  · unfold dispatchStep
    cases hg : generateParams rng k m.params with
    | none => rfl
    | some pk =>
      obtain ⟨params, k'⟩ := pk
      rw [hview]
      rfl
  · intro st' hstep
    cases hg : generateParams rng k m.params with
    | none =>
      have hnone : dispatchStep rng wallet sk1 contract (net, k) m =
          none := by
        unfold dispatchStep
        rw [hg]
      rw [hnone] at hstep
      exact absurd hstep (by simp)
    | some pk =>
      obtain ⟨params, k'⟩ := pk
      refine ⟨params, k', rfl, ?_⟩
      cases hv : viewCallResult net.trace with
      | ok r =>
        have hstep' : dispatchStep rng wallet sk1 contract (net, k) m =
            some
            ({ net with
                 trace := net.trace.tail,
                 sent := net.sent ++ [⟨"POST",
                   wallet.rpc ++ "/contract/call-view",
                   some (viewBody contract m.name params wallet.addr)⟩],
                 console := (net.console ++ [.marker m.label]) ++
                   [.resultLine r],
                 fileLog := net.fileLog ++ [m.label ++ ": " ++ r],
                 slept := net.slept ++ [2] }, k') := by
          unfold dispatchStep
          rw [hg, hview]
          dsimp only
          rw [if_pos rfl, viewCall_eval { net with
              console := net.console ++ [ConsoleLine.marker m.label] }
              wallet.rpc contract m.name params wallet.addr, hv]
        have h2 := hstep'.symm.trans hstep
        injection h2 with h2
        rw [← h2]
        exact ⟨rfl, rfl, rfl⟩
      | error e =>
        have hstep' : dispatchStep rng wallet sk1 contract (net, k) m =
            some
            ({ net with
                 trace := net.trace.tail,
                 sent := net.sent ++ [⟨"POST",
                   wallet.rpc ++ "/contract/call-view",
                   some (viewBody contract m.name params wallet.addr)⟩],
                 console := (net.console ++ [.marker m.label]) ++
                   [.errorLine e.display],
                 fileLog := net.fileLog ++
                   [m.label ++ ": Error - " ++ e.display],
                 slept := net.slept ++ [2] }, k') := by
          unfold dispatchStep
          rw [hg, hview]
          dsimp only
          rw [if_pos rfl, viewCall_eval { net with
              console := net.console ++ [ConsoleLine.marker m.label] }
              wallet.rpc contract m.name params wallet.addr, hv]
        have h2 := hstep'.symm.trans hstep
        injection h2 with h2
        rw [← h2]
        exact ⟨rfl, rfl, rfl⟩

/-- C7 witness: two different signing keys produce the identical dispatch
step for a concrete view method, and the single issued request is the
call-view POST. -/
theorem view_path_ignores_signing_key_witness :
    (⟨"get", "Get", [], "view"⟩ : Method).method_type = "view" ∧
    dispatchStep (fun _ => 0) ⟨"priv", "addr", "rpc"⟩
      ⟨fun _ => "s1", "pk1"⟩ "c"
      (mkNet [.reply 200 "" (some (.obj [("status", .str "success"),
        ("result", .str "r")]))] (fun _ => 0), 0)
      ⟨"get", "Get", [], "view"⟩ =
    dispatchStep (fun _ => 0) ⟨"priv", "addr", "rpc"⟩
      ⟨fun m => m ++ "2", "pk2"⟩ "c"
      (mkNet [.reply 200 "" (some (.obj [("status", .str "success"),
        ("result", .str "r")]))] (fun _ => 0), 0)
      ⟨"get", "Get", [], "view"⟩ := by
  refine ⟨rfl, ?_⟩
  exact (view_path_ignores_signing_key (fun _ => 0)
    ⟨"priv", "addr", "rpc"⟩ ⟨fun _ => "s1", "pk1"⟩
    ⟨fun m => m ++ "2", "pk2"⟩ "c"
    (mkNet [.reply 200 "" (some (.obj [("status", .str "success"),
      ("result", .str "r")]))] (fun _ => 0), 0)
    ⟨"get", "Get", [], "view"⟩ rfl).1

/-! ### C8 -/

/-- Attempts never print and never write the report file. -/
theorem trySendTx_state (net : Net) (apiUrl : String) (sk : SigningKey)
    (from_ contract method : String) (params : List String) :
    (trySendTx net apiUrl sk from_ contract method params).2.console =
      net.console ∧
    (trySendTx net apiUrl sk from_ contract method params).2.fileLog =
      net.fileLog := by
  unfold trySendTx getBalance
  cases hv : getBalanceResult net.trace with
  | error e => exact ⟨rfl, rfl⟩
  | ok v =>
    obtain ⟨q, n⟩ := v
    exact ⟨rfl, rfl⟩

/-- The retry loop appends only non-marker console lines and never writes
the report file. -/
theorem callLoop_effects (apiUrl : String) (sk : SigningKey)
    (from_ contract method : String) (params : List String) :
    ∀ (fuel attempt : Nat) (net : Net),
      ∃ tail,
        (callLoop apiUrl sk from_ contract method params fuel attempt
          net).2.console = net.console ++ tail ∧
        markersOf tail = [] ∧
        (callLoop apiUrl sk from_ contract method params fuel attempt
          net).2.fileLog = net.fileLog := by
  intro fuel
  induction fuel with
  | zero =>
    intro attempt net
    exact ⟨[], (List.append_nil _).symm, rfl, rfl⟩
  | succ fuel ih =>
    intro attempt net
    obtain ⟨hc, hf⟩ := trySendTx_state net apiUrl sk from_ contract
      method params
    rw [callLoop_succ]
    rcases hts : trySendTx net apiUrl sk from_ contract method params
      with ⟨r, net'⟩
    rw [hts] at hc hf
    cases r with
    | ok hash =>
      refine ⟨[], ?_, rfl, hf⟩
      rw [List.append_nil]
      exact hc
    | error e =>
      obtain ⟨tail, ht1, ht2, ht3⟩ := ih (attempt + 1)
        { net' with
            console := net'.console ++
              [.attemptFailed attempt e.display],
            slept := net'.slept ++ [2] }
      refine ⟨.attemptFailed attempt e.display :: tail, ?_, ?_, ?_⟩
      · rw [ht1]
        show (net'.console ++ [ConsoleLine.attemptFailed attempt
          e.display]) ++ tail = net.console ++ (_ :: tail)
        rw [hc]
        simp [List.append_assoc]
      · show markersOf (ConsoleLine.attemptFailed attempt e.display ::
          tail) = []
        simp only [markersOf, List.filterMap_cons]
        exact ht2
      · exact ht3.trans hf
    

/-- In a world where every pending response is a transport failure, the
retry loop always ends with the aggregate `All retries failed` error. -/
theorem callLoop_allFail (apiUrl : String) (sk : SigningKey)
    (from_ contract method : String) (params : List String) :
    ∀ (fuel attempt : Nat) (net : Net),
      (∀ r ∈ net.trace, ∃ m, r = NetResult.transportErr m) →
      (callLoop apiUrl sk from_ contract method params fuel attempt
        net).1 = .error .retriesExhausted := by
  intro fuel
  induction fuel with
  | zero => intro attempt net h; rfl
  | succ fuel ih =>
    intro attempt net h
    obtain ⟨msg, hts⟩ := trySendTx_allFail net apiUrl sk from_ contract
      method params h
    rw [callLoop_succ, hts]
    exact ih (attempt + 1) _
      (fun r hr => h r (mem_of_tail net.trace r hr))

/-- Evaluation of one dispatcher iteration on a view-kind method. -/
theorem dispatchStep_view (rng : Nat → Nat) (wallet : Wallet)
    (sk : SigningKey) (contract : String) (net : Net) (k : Nat)
    (m : Method) (params : List String) (k' : Nat)
    (hview : m.method_type = "view")
    (hg : generateParams rng k m.params = some (params, k')) :
    dispatchStep rng wallet sk contract (net, k) m =
      some ((match viewCallResult net.trace with
             | .ok r =>
               { net with
                   trace := net.trace.tail,
                   sent := net.sent ++ [⟨"POST",
                     wallet.rpc ++ "/contract/call-view",
                     some (viewBody contract m.name params
                       wallet.addr)⟩],
                   console := (net.console ++ [.marker m.label]) ++
                     [.resultLine r],
                   fileLog := net.fileLog ++ [m.label ++ ": " ++ r],
                   slept := net.slept ++ [2] }
             | .error e =>
               { net with
                   trace := net.trace.tail,
                   sent := net.sent ++ [⟨"POST",
                     wallet.rpc ++ "/contract/call-view",
                     some (viewBody contract m.name params
                       wallet.addr)⟩],
                   console := (net.console ++ [.marker m.label]) ++
                     [.errorLine e.display],
                   fileLog := net.fileLog ++
                     [m.label ++ ": Error - " ++ e.display],
                   slept := net.slept ++ [2] }), k') := by
  unfold dispatchStep
  rw [hg, hview]
  dsimp only
  rw [if_pos rfl, viewCall_eval { net with
    console := net.console ++ [ConsoleLine.marker m.label] }
    wallet.rpc contract m.name params wallet.addr]
  cases hvr : viewCallResult net.trace with
  | ok r => rfl
  | error e => rfl

/-- Evaluation of one dispatcher iteration on a call-kind method. -/
theorem dispatchStep_call (rng : Nat → Nat) (wallet : Wallet)
    (sk : SigningKey) (contract : String) (net : Net) (k : Nat)
    (m : Method) (params : List String) (k' : Nat)
    (hcall : m.method_type = "call")
    (hg : generateParams rng k m.params = some (params, k')) :
    dispatchStep rng wallet sk contract (net, k) m =
      some ((match callContractTx { net with
               console := net.console ++ [.marker m.label] } wallet.rpc
               sk wallet.addr contract m.name params with
             | (.ok h, n1) =>
               { n1 with
                   console := n1.console ++ [.txHashLine h],
                   fileLog := n1.fileLog ++
                     [m.label ++ ": TX Hash " ++ h],
                   slept := n1.slept ++ [2] }
             | (.error e, n1) =>
               { n1 with
                   console := n1.console ++ [.errorLine e.display],
                   fileLog := n1.fileLog ++
                     [m.label ++ ": Error - " ++ e.display],
                   slept := n1.slept ++ [2] }), k') := by
  unfold dispatchStep
  rw [hg, hcall]
  dsimp only
  rw [if_neg (by decide), if_pos rfl]
  rcases hcc : callContractTx { net with
    console := net.console ++ [ConsoleLine.marker m.label] } wallet.rpc
    sk wallet.addr contract m.name params with ⟨r, n1⟩
  cases r with
  | ok h => rfl
  | error e => rfl

/-- Evaluation of one dispatcher iteration on an unrecognized method
kind: reported and skipped (no request, no report-file line). -/
theorem dispatchStep_unknown (rng : Nat → Nat) (wallet : Wallet)
    (sk : SigningKey) (contract : String) (net : Net) (k : Nat)
    (m : Method) (params : List String) (k' : Nat)
    (h1 : m.method_type ≠ "view") (h2 : m.method_type ≠ "call")
    (hg : generateParams rng k m.params = some (params, k')) :
    dispatchStep rng wallet sk contract (net, k) m =
      some ({ net with
          console := (net.console ++ [.marker m.label]) ++
            [.unknownType],
          slept := net.slept ++ [2] }, k') := by
  unfold dispatchStep
  rw [hg]
  dsimp only
  rw [if_neg h1, if_neg h2]

/-- One dispatcher iteration under panic-free generation always completes
and contributes exactly one marker line followed by non-marker lines. -/
theorem dispatchStep_total (rng : Nat → Nat) (wallet : Wallet)
    (sk : SigningKey) (contract : String) (st : Net × Nat) (m : Method)
    (hgen : ∀ p ∈ m.params, p.example_ = none → 1 ≤ p.max.getD 100) :
    ∃ st' tail, dispatchStep rng wallet sk contract st m = some st' ∧
      st'.1.console = st.1.console ++ (.marker m.label :: tail) ∧
      markersOf tail = [] := by
  obtain ⟨net, k⟩ := st
  obtain ⟨params, k', hg, _⟩ := generateParams_some rng k m.params hgen
  by_cases hv : m.method_type = "view"
  · rw [dispatchStep_view rng wallet sk contract net k m params k' hv hg]
    cases hvr : viewCallResult net.trace with
    | ok r =>
      refine ⟨_, [.resultLine r], rfl, ?_, rfl⟩
      show (net.console ++ [ConsoleLine.marker m.label]) ++
        [ConsoleLine.resultLine r] = net.console ++ _
      simp [List.append_assoc]
    | error e =>
      refine ⟨_, [.errorLine e.display], rfl, ?_, rfl⟩
      show (net.console ++ [ConsoleLine.marker m.label]) ++
        [ConsoleLine.errorLine e.display] = net.console ++ _
      simp [List.append_assoc]
  · by_cases hc : m.method_type = "call"
    · rw [dispatchStep_call rng wallet sk contract net k m params k' hc
        hg]
      obtain ⟨tailc, hc1, hc2, _⟩ := callLoop_effects wallet.rpc sk
        wallet.addr contract m.name params 3 1 { net with
          console := net.console ++ [ConsoleLine.marker m.label] }
      rcases hcc : callContractTx { net with
        console := net.console ++ [ConsoleLine.marker m.label] }
        wallet.rpc sk wallet.addr contract m.name params with ⟨r, n1⟩
      rw [show callContractTx { net with
        console := net.console ++ [ConsoleLine.marker m.label] }
        wallet.rpc sk wallet.addr contract m.name params =
        callLoop wallet.rpc sk wallet.addr contract m.name params 3 1
          { net with
            console := net.console ++ [ConsoleLine.marker m.label] }
        from rfl] at hcc
      rw [hcc] at hc1
      cases r with
      | ok h =>
        refine ⟨_, tailc ++ [.txHashLine h], rfl, ?_, ?_⟩
        · show n1.console ++ [ConsoleLine.txHashLine h] = _
          rw [hc1]
          simp [List.append_assoc]
        · simp only [markersOf, List.filterMap_append] at hc2 ⊢
          rw [hc2]
          rfl
      | error e =>
        refine ⟨_, tailc ++ [.errorLine e.display], rfl, ?_, ?_⟩
        · show n1.console ++ [ConsoleLine.errorLine e.display] = _
          rw [hc1]
          simp [List.append_assoc]
        · simp only [markersOf, List.filterMap_append] at hc2 ⊢
          rw [hc2]
          rfl
    · rw [dispatchStep_unknown rng wallet sk contract net k m params k'
        hv hc hg]
      refine ⟨_, [.unknownType], rfl, ?_, rfl⟩
      show (net.console ++ [ConsoleLine.marker m.label]) ++
        [ConsoleLine.unknownType] = net.console ++ _
      simp [List.append_assoc]

/-- The method loop completes on panic-free interfaces and its console
markers list every method label in declaration order. -/
theorem runMethods_markers (rng : Nat → Nat) (wallet : Wallet)
    (sk : SigningKey) (contract : String) (ms : List Method) :
    ∀ st : Net × Nat,
      (∀ m ∈ ms, ∀ p ∈ m.params, p.example_ = none →
        1 ≤ p.max.getD 100) →
      ∃ st', runMethods rng wallet sk contract st ms = some st' ∧
        markersOf st'.1.console =
          markersOf st.1.console ++ ms.map Method.label := by
  induction ms with
  | nil =>
    intro st h
    exact ⟨st, rfl, by simp⟩
  | cons m ms ih =>
    intro st h
    obtain ⟨st1, tail, hstep, hcons, hmark⟩ := dispatchStep_total rng
      wallet sk contract st m (h m (List.mem_cons_self m ms))
    obtain ⟨st', hrun, hmark'⟩ := ih st1
      (fun m' hm' => h m' (List.mem_cons_of_mem m hm'))
    refine ⟨st', ?_, ?_⟩
    · unfold runMethods
      simp only [hstep]
      exact hrun
    · rw [hmark', hcons]
      simp only [markersOf, List.filterMap_append, List.filterMap_cons]
      simp only [markersOf] at hmark
      rw [hmark]
      simp

/-- C8: under panic-free parameter generation the dispatcher processes
every declared method in declaration order — the run always completes
with one `▶ label` marker per method, in order, regardless of each
method's outcome, so no single method's failure is fatal; a method of
unrecognized kind is reported (`Unknown method type`) and skipped (no
request issued, no report line); a view method whose invocation ends in a
terminal error has that error reported in the report file while the step
still completes; and a call method whose transport always fails has its
retry exhaustion reported in the report file (`label: Error - ` followed
by `Err.retriesExhausted.display`, i.e. `All retries failed`) while the
step still completes. -/
theorem dispatcher_processes_all_methods (rng : Nat → Nat)
    (wallet : Wallet) (sk : SigningKey) (contract : String)
    (st : Net × Nat) (ms : List Method)
    (h : ∀ m ∈ ms, ∀ p ∈ m.params, p.example_ = none →
      1 ≤ p.max.getD 100) :
    (∃ st', runMethods rng wallet sk contract st ms = some st' ∧
      markersOf st'.1.console =
        markersOf st.1.console ++ ms.map Method.label) ∧
    (∀ (m : Method) (net : Net) (k : Nat) (params : List String)
      (k' : Nat), m.method_type ≠ "view" → m.method_type ≠ "call" →
      generateParams rng k m.params = some (params, k') →
      dispatchStep rng wallet sk contract (net, k) m =
        some ({ net with
            console := (net.console ++ [.marker m.label]) ++
              [.unknownType],
            slept := net.slept ++ [2] }, k')) ∧
    (∀ (m : Method) (net : Net) (k : Nat) (params : List String)
      (k' : Nat) (e : Err), m.method_type = "view" →
      generateParams rng k m.params = some (params, k') →
      viewCallResult net.trace = .error e →
      ∃ st', dispatchStep rng wallet sk contract (net, k) m =
        some st' ∧
        st'.1.fileLog = net.fileLog ++
          [m.label ++ ": Error - " ++ e.display]) ∧
    (∀ (m : Method) (net : Net) (k : Nat) (params : List String)
      (k' : Nat), m.method_type = "call" →
      generateParams rng k m.params = some (params, k') →
      (∀ r ∈ net.trace, ∃ msg, r = NetResult.transportErr msg) →
      ∃ st', dispatchStep rng wallet sk contract (net, k) m =
        some st' ∧
        st'.1.fileLog = net.fileLog ++
          [m.label ++ ": Error - " ++ Err.retriesExhausted.display]) := by
  refine ⟨runMethods_markers rng wallet sk contract ms st h, ?_, ?_, ?_⟩
  · intro m net k params k' h1 h2 hg
    exact dispatchStep_unknown rng wallet sk contract net k m params k'
      h1 h2 hg
  · intro m net k params k' e hview hg hvr
    rw [dispatchStep_view rng wallet sk contract net k m params k' hview
      hg, hvr]
    exact ⟨_, rfl, rfl⟩
  · intro m net k params k' hcall hg hfail
    rw [dispatchStep_call rng wallet sk contract net k m params k' hcall
      hg]
    rcases hcc : callContractTx { net with
      console := net.console ++ [ConsoleLine.marker m.label] } wallet.rpc
      sk wallet.addr contract m.name params with ⟨r, n1⟩
    have hcl : callLoop wallet.rpc sk wallet.addr contract m.name params
        3 1 { net with
          console := net.console ++ [ConsoleLine.marker m.label] } =
        (r, n1) := hcc
    have hres : r = Except.error Err.retriesExhausted := by
      have h2 := callLoop_allFail wallet.rpc sk wallet.addr contract
        m.name params 3 1 { net with
          console := net.console ++ [ConsoleLine.marker m.label] } hfail
      rw [hcl] at h2
      exact h2
    obtain ⟨tailc, _, _, hfl⟩ := callLoop_effects wallet.rpc sk
      wallet.addr contract m.name params 3 1 { net with
        console := net.console ++ [ConsoleLine.marker m.label] }
    rw [hcl] at hfl
    have hfl2 : n1.fileLog = net.fileLog := hfl
    subst hres
    refine ⟨_, rfl, ?_⟩
    show n1.fileLog ++ [m.label ++ ": Error - " ++
        Err.retriesExhausted.display] =
      net.fileLog ++ [m.label ++ ": Error - " ++
        Err.retriesExhausted.display]
    rw [hfl2]

/-- C8 witness: a three-method interface — a view method whose call
errors, a method of unknown kind, and a view method that succeeds — runs
to completion with all three markers in order. -/
theorem dispatcher_processes_all_methods_witness :
    (∀ m ∈ [(⟨"a", "A", [], "view"⟩ : Method), ⟨"b", "B", [], "mystery"⟩,
      ⟨"c", "C", [], "view"⟩], ∀ p ∈ m.params,
      p.example_ = none → 1 ≤ p.max.getD 100) ∧
    (∃ st', runMethods (fun _ => 0) ⟨"priv", "addr", "rpc"⟩
        ⟨fun _ => "s", "pk"⟩ "con"
        (mkNet [.transportErr "down", .reply 200 ""
          (some (.obj [("status", .str "success")]))] (fun _ => 0), 0)
        [(⟨"a", "A", [], "view"⟩ : Method), ⟨"b", "B", [], "mystery"⟩,
         ⟨"c", "C", [], "view"⟩] = some st' ∧
      markersOf st'.1.console =
        markersOf (mkNet [.transportErr "down", .reply 200 ""
          (some (.obj [("status", .str "success")]))]
          (fun _ => 0)).console ++ ["A", "B", "C"]) := by
  have hgen : ∀ m ∈ [(⟨"a", "A", [], "view"⟩ : Method),
      ⟨"b", "B", [], "mystery"⟩, ⟨"c", "C", [], "view"⟩],
      ∀ p ∈ m.params, p.example_ = none → 1 ≤ p.max.getD 100 := by
    intro m hm p hp
    simp only [List.mem_cons, List.mem_singleton] at hm
    rcases hm with rfl | rfl | rfl | hm <;> simp_all
  refine ⟨hgen, ?_⟩
  exact (dispatcher_processes_all_methods (fun _ => 0)
    ⟨"priv", "addr", "rpc"⟩ ⟨fun _ => "s", "pk"⟩ "con"
    (mkNet [.transportErr "down", .reply 200 ""
      (some (.obj [("status", .str "success")]))] (fun _ => 0), 0)
    [(⟨"a", "A", [], "view"⟩ : Method), ⟨"b", "B", [], "mystery"⟩,
     ⟨"c", "C", [], "view"⟩] hgen).1

/-! ### C5 -/

/-- C5 counterexample: on a success reply whose `result` field is the JSON
number `42`, `view_call` returns the literal string `"null"`, not the
field's textual form `"42"` — so "the result field coerced to its textual
form" does not hold for non-string results. -/
theorem view_result_textual_form_counterexample :
    (viewCall (mkNet [.reply 200 "" (some (.obj [("status", .str "success"),
        ("result", .num 42)]))] (fun _ => 0)) "rpc" "c" "m" [] "a").1 =
      .ok "null" ∧
    specTextualForm (.num 42) = "42" ∧
    ("null" : String) ≠ "42" := by
  refine ⟨rfl, ?_, by decide⟩
  show toString (42 : ℚ) = "42"
  rfl

/-- C5 (amended): on a reply whose status discriminator equals
`"success"`, the view call returns the result field's contents when that
field is a JSON string, and the literal string `"null"` otherwise (absent
or non-string result); for any other status it fails with an error
carrying the raw response. -/
theorem view_result_string_or_null (net : Net)
    (apiUrl contract method caller text : String) (params : List String)
    (j : Json) (rest : List NetResult)
    (ht : net.trace = .reply 200 text (some j) :: rest) :
    ((j.getIdx "status").eqStr "success" = true →
      (∀ r, j.getIdx "result" = .str r →
        (viewCall net apiUrl contract method params caller).1 = .ok r) ∧
      ((j.getIdx "result").asStr = none →
        (viewCall net apiUrl contract method params caller).1 =
          .ok "null")) ∧
    ((j.getIdx "status").eqStr "success" = false →
      (viewCall net apiUrl contract method params caller).1 =
        .error (.contract j)) := by
  have h1 : (viewCall net apiUrl contract method params caller).1 =
      viewCallResult net.trace := rfl
  have step1 : viewCallResult (.reply 200 text (some j) :: rest) =
      (if (j.getIdx "status").eqStr "success" then
        .ok ((j.getIdx "result").asStr.getD "null")
      else .error (.contract j)) := rfl
  constructor
  · intro hs
    constructor
    · intro r hr
      rw [h1, ht, step1, if_pos hs, hr]
      rfl
    · intro hnone
      rw [h1, ht, step1, if_pos hs, hnone]
      rfl
  · intro hs
    rw [h1, ht, step1, if_neg (by simp [hs])]

/-- C5 witness: the spec's scenario — a success reply with no `result`
field yields the literal string `"null"`; a success reply whose result is
the string `"ok"` yields `"ok"`; an `"error"` status fails carrying the
raw response. -/
theorem view_result_string_or_null_witness :
    (mkNet [.reply 200 "" (some (.obj [("status", .str "success")]))]
        (fun _ => 0)).trace =
      NetResult.reply 200 ""
        (some (.obj [("status", .str "success")])) :: [] ∧
    ((Json.obj [("status", .str "success")]).getIdx "status").eqStr
      "success" = true ∧
    ((Json.obj [("status", .str "success")]).getIdx "result").asStr =
      none ∧
    (viewCall (mkNet [.reply 200 ""
        (some (.obj [("status", .str "success")]))] (fun _ => 0))
      "rpc" "c" "m" [] "a").1 = .ok "null" ∧
    (viewCall (mkNet [.reply 200 "" (some (.obj [("status", .str "success"),
        ("result", .str "ok")]))] (fun _ => 0))
      "rpc" "c" "m" [] "a").1 = .ok "ok" ∧
    (viewCall (mkNet [.reply 200 "" (some (.obj [("status", .str "error")]))]
        (fun _ => 0)) "rpc" "c" "m" [] "a").1 =
      .error (.contract (.obj [("status", .str "error")])) := by
  refine ⟨rfl, rfl, rfl, ?_, ?_, ?_⟩
  · exact ((view_result_string_or_null (mkNet [.reply 200 ""
      (some (.obj [("status", .str "success")]))] (fun _ => 0))
      "rpc" "c" "m" "a" "" [] (.obj [("status", .str "success")]) []
      rfl).1 rfl).2 rfl
  · exact ((view_result_string_or_null (mkNet [.reply 200 ""
      (some (.obj [("status", .str "success"), ("result", .str "ok")]))]
      (fun _ => 0)) "rpc" "c" "m" "a" ""
      [] (.obj [("status", .str "success"), ("result", .str "ok")]) []
      rfl).1 rfl).1 "ok" rfl
  · exact (view_result_string_or_null (mkNet [.reply 200 ""
      (some (.obj [("status", .str "error")]))] (fun _ => 0))
      "rpc" "c" "m" "a" "" [] (.obj [("status", .str "error")]) []
      rfl).2 rfl

end Ocs01
